import Mathlib

/-!
# MyBot admin client: resource aggregation and live-update engine

A shallow embedding of the pure parts of the two frontends of the MyBot
administrative client:

* `src/web/frontend/src/utils/helpers.js` (`formatTimeDelta`),
* `src/web/static/app.js` (`formatTimeDelta`, the counters of `loadTodos`,
  `updateDashboardStats`, the series of the three chart renderers,
  `submitReminder`),
* `src/web/frontend/src/pages/{Reminders,Todos,Countdowns,Dashboard}.jsx`
  (`loadReminders`, `loadTodos`, `loadCountdowns`, `updateStats`),
* `src/web/frontend/src/pages/Usage.jsx` (the series of `loadUsageStats`),
* the mutating handlers of `Reminders.jsx`, `Todos.jsx`, `Countdowns.jsx`,
  `Eat.jsx` and `Images.jsx`, with `handleFileSelect`, the type label of a
  reminder card and `updateTimers`,
* the URL of `deleteImage` in `services/api.js` and in `static/app.js`,
* the countdown timers of `static/app.js` (`navigateTo`, `loadCountdowns`,
  `updateCountdownTimers`) as a transition system.

Conventions of the embedding.

* An instant is its JavaScript time value: an integer number of milliseconds,
  modelled as `Int`.  `new Date()` (the current instant) is made an explicit
  argument `now`.  For a valid target `Date` and a current instant of our era
  every intermediate quantity of `formatTimeDelta` is an integer below `2^53`,
  so the double arithmetic of the source is exact and integer arithmetic models
  it.  An unparsable target (`Invalid Date`) is outside the model.
* `Math.floor (a / b)` is `Int.fdiv a b`, and the JavaScript remainder `a % b`
  (sign of the dividend) is `Int.tmod a b`.
* A JavaScript object is the list of its own enumerable properties in
  iteration order, with pairwise distinct keys.  A backend response, an object
  keyed by owner id, is given as the sequence `Object.entries` returns for it.
* An asynchronous handler is a function of the state of its view, its
  arguments and the outcomes of what it awaits; it returns the state after the
  run and the list of its effects in order.
-/

namespace MyBot

/-! ## Time-left formatting (`formatTimeDelta`) -/

namespace TimeDelta

/-- The constant `1000 * 60 * 60 * 24` of the source. -/
def msPerDay : Int := 1000 * 60 * 60 * 24

/-- The constant `1000 * 60 * 60` of the source. -/
def msPerHour : Int := 1000 * 60 * 60

/-- The constant `1000 * 60` of the source. -/
def msPerMinute : Int := 1000 * 60

/-- Source: `const days = Math.floor(diff / (1000 * 60 * 60 * 24))`. -/
def days (diff : Int) : Int := Int.fdiv diff msPerDay

/-- Source:
`const hours = Math.floor((diff % (1000 * 60 * 60 * 24)) / (1000 * 60 * 60))`. -/
def hours (diff : Int) : Int := Int.fdiv (Int.tmod diff msPerDay) msPerHour

/-- Source:
`const minutes = Math.floor((diff % (1000 * 60 * 60)) / (1000 * 60))`. -/
def minutes (diff : Int) : Int := Int.fdiv (Int.tmod diff msPerHour) msPerMinute

end TimeDelta

/-- The sentinel returned for a target in the past. -/
def expired : String := "已过期"

/-- The function `formatTimeDelta` of `utils/helpers.js`, with the target's
time value and the current time value as arguments. -/
def formatTimeDelta (target now : Int) : String :=
  let diff := target - now
  if diff < 0 then
    "已过期"
  else
    let days := TimeDelta.days diff
    let hours := TimeDelta.hours diff
    let minutes := TimeDelta.minutes diff
    if days > 0 then
      toString days ++ "天" ++ toString hours ++ "小时"
    else if hours > 0 then
      toString hours ++ "小时" ++ toString minutes ++ "分钟"
    else
      toString minutes ++ "分钟"

namespace Static

/-- The function `formatTimeDelta` of `static/app.js` (lines 44-64). -/
def formatTimeDelta (target now : Int) : String :=
  let diff := target - now
  if diff < 0 then
    "已过期"
  else
    let days := Int.fdiv diff (1000 * 60 * 60 * 24)
    let hours := Int.fdiv (Int.tmod diff (1000 * 60 * 60 * 24)) (1000 * 60 * 60)
    let minutes := Int.fdiv (Int.tmod diff (1000 * 60 * 60)) (1000 * 60)
    if days > 0 then
      toString days ++ "天" ++ toString hours ++ "小时"
    else if hours > 0 then
      toString hours ++ "小时" ++ toString minutes ++ "分钟"
    else
      toString minutes ++ "分钟"

end Static

/-! ## JavaScript values and objects -/

/-- A field value of a backend payload: the JSON scalars, plus an array of
numbers (the `weekdays` field of a reminder). -/
inductive Val where
  | null
  | bool (b : Bool)
  | num (n : Int)
  | str (s : String)
  | nums (xs : List Int)
  deriving DecidableEq

namespace Js

/-- Property write on a property list: an existing key keeps its position and
takes the new value, a new key is appended. -/
def setProps (k : String) (v : Val) : List (String × Val) → List (String × Val)
  | [] => [(k, v)]
  | p :: rest => if p.1 = k then (k, v) :: rest else p :: setProps k v rest

/-- Property read on a property list; `none` is `undefined`. -/
def getProps (k : String) : List (String × Val) → Option Val
  | [] => none
  | p :: rest => if p.1 = k then some p.2 else getProps k rest

/-- JavaScript truthiness of a property read (`none` is `undefined`). -/
def truthy : Option Val → Bool
  | none => false
  | some Val.null => false
  | some (Val.bool b) => b
  | some (Val.num n) => n != 0
  | some (Val.str s) => s != ""
  | some (Val.nums _) => true

theorem keys_setProps (k : String) (v : Val) (l : List (String × Val)) :
    (setProps k v l).map Prod.fst =
      if k ∈ l.map Prod.fst then l.map Prod.fst else l.map Prod.fst ++ [k] := by
  induction l with
  | nil => simp [setProps]
  | cons p rest ih =>
    by_cases h : p.1 = k
    · simp [setProps, h]
    · have h' : ¬ k = p.1 := fun e => h e.symm
      by_cases hm : k ∈ rest.map Prod.fst
      · simp [setProps, h, h', ih, hm]
      · simp [setProps, h, h', ih, hm]

theorem nodup_setProps (k : String) (v : Val) {l : List (String × Val)}
    (h : (l.map Prod.fst).Nodup) : ((setProps k v l).map Prod.fst).Nodup := by
  rw [keys_setProps]
  by_cases hm : k ∈ l.map Prod.fst
  · rw [if_pos hm]; exact h
  · rw [if_neg hm]
    exact List.nodup_append.mpr ⟨h, List.nodup_singleton k, by
      intro a ha hb
      rw [List.mem_singleton] at hb
      exact hm (hb ▸ ha)⟩

end Js

/-- A JavaScript object: its own enumerable properties in iteration order,
with pairwise distinct keys. -/
structure Obj where
  props : List (String × Val)
  nodup : (props.map Prod.fst).Nodup
  deriving DecidableEq

namespace Obj

/-- The object literal `{}`. -/
def empty : Obj := ⟨[], List.nodup_nil⟩

/-- Property read `o.k`; `none` is `undefined`. -/
def get (o : Obj) (k : String) : Option Val := Js.getProps k o.props

/-- Definition of the property `k` with value `v` inside an object literal. -/
def set (o : Obj) (k : String) (v : Val) : Obj :=
  ⟨Js.setProps k v o.props, Js.nodup_setProps k v o.nodup⟩

/-- Object spread `...src` inside a literal whose properties so far are `dst`:
each own property of `src` is defined on the result, in order. -/
def spread (dst src : Obj) : Obj :=
  src.props.foldl (fun acc p => acc.set p.1 p.2) dst

end Obj

/-! ## Snapshots and normalizers -/

/-- `arr.forEach((x, index) => ...)` as a state-passing loop, started at
position `i`. -/
def forEachFrom {σ α : Type} (f : σ → α → Nat → σ) : Nat → List α → σ → σ
  | _, [], s => s
  | i, x :: xs, s => forEachFrom f (i + 1) xs (f s x i)

/-- `arr.forEach((x, index) => ...)` as a state-passing loop. -/
def forEachIdx {σ α : Type} (f : σ → α → Nat → σ) (xs : List α) (s : σ) : σ :=
  forEachFrom f 0 xs s

/-- The reminders response: `Object.entries(data)`, owner id to reminder array. -/
abbrev ReminderSnapshot := List (String × List Obj)

/-- One owner's todos: the optional `work` and `play` arrays. -/
structure UserTodos where
  work : Option (List Obj)
  play : Option (List Obj)
  deriving DecidableEq

/-- The todos response: `Object.entries(data)`, owner id to `UserTodos`. -/
abbrev TodoSnapshot := List (String × UserTodos)

/-- The countdowns response: `Object.entries(data)`, owner id to the entries of
the owner's event map (event name to payload). -/
abbrev CountdownSnapshot := List (String × List (String × Obj))

/-- The literal `{ ...reminder, userId }` of `loadReminders`. -/
def reminderEntry (userId : String) (reminder : Obj) : Obj :=
  (Obj.spread Obj.empty reminder).set "userId" (Val.str userId)

/-- The function `loadReminders` of `Reminders.jsx`: the list handed to
`setReminders`. -/
def loadReminders (data : ReminderSnapshot) : List Obj :=
  data.foldl
    (fun reminderList entry =>
      entry.2.foldl
        (fun acc reminder => acc ++ [reminderEntry entry.1 reminder])
        reminderList)
    []

/-- The literal `{ ...todo, userId, index, category: c }` of `loadTodos`. -/
def todoEntry (todo : Obj) (userId : String) (index : Nat) (category : String) : Obj :=
  (((Obj.spread Obj.empty todo).set "userId" (Val.str userId)).set
    "index" (Val.num index)).set "category" (Val.str category)

/-- The state `{ work, play }` of the Todos view. -/
structure Todos where
  work : List Obj
  play : List Obj
  deriving DecidableEq

/-- The function `loadTodos` of `Todos.jsx`: the value handed to `setTodos`. -/
def loadTodos (data : TodoSnapshot) : Todos :=
  data.foldl
    (fun st entry =>
      let userId := entry.1
      let userTodos := entry.2
      let workTodos :=
        match userTodos.work with
        | some work =>
          forEachIdx (fun acc todo index => acc ++ [todoEntry todo userId index "work"])
            work st.work
        | none => st.work
      let playTodos :=
        match userTodos.play with
        | some play =>
          forEachIdx (fun acc todo index => acc ++ [todoEntry todo userId index "play"])
            play st.play
        | none => st.play
      { work := workTodos, play := playTodos })
    { work := [], play := [] }

/-- The literal `{ userId, eventName, ...countdownData }` of `loadCountdowns`. -/
def countdownEntry (userId eventName : String) (countdownData : Obj) : Obj :=
  Obj.spread
    ((Obj.empty.set "userId" (Val.str userId)).set "eventName" (Val.str eventName))
    countdownData

/-- The function `loadCountdowns` of `Countdowns.jsx`: the list handed to
`setCountdowns`. -/
def loadCountdowns (data : CountdownSnapshot) : List Obj :=
  data.foldl
    (fun countdownList entry =>
      entry.2.foldl
        (fun acc ev => acc ++ [countdownEntry entry.1 ev.1 ev.2])
        countdownList)
    []

/-- The pair `(countdown.userId, countdown.eventName)` that the delete button of
a countdown card passes to `handleDelete`, hence to `api.deleteCountdown`. -/
def deleteArgs (countdown : Obj) : Option Val × Option Val :=
  (countdown.get "userId", countdown.get "eventName")

/-! ## Derived counts -/

/-- The predicate `t => !t.done` of the source. -/
def undone (t : Obj) : Bool := !Js.truthy (t.get "done")

/-- Source (`Todos.jsx`): `todos.work.filter(t => !t.done).length`. -/
def workCount (todos : Todos) : Nat := (todos.work.filter undone).length

/-- Source (`Todos.jsx`): `todos.play.filter(t => !t.done).length`. -/
def playCount (todos : Todos) : Nat := (todos.play.filter undone).length

namespace Dashboard

/-- The `todoCount` computed by `updateStats` of `Dashboard.jsx` from the todos
response (`Object.values(todos).forEach(...)`). -/
def todoCount (todos : TodoSnapshot) : Nat :=
  todos.foldl
    (fun todoCount entry =>
      let userTodos := entry.2
      let c1 :=
        match userTodos.work with
        | some work => todoCount + (work.filter undone).length
        | none => todoCount
      match userTodos.play with
      | some play => c1 + (play.filter undone).length
      | none => c1)
    0

end Dashboard

namespace Static

/-- The counters `(workCount, playCount)` of `loadTodos` in `static/app.js`:
incremented inside the two `forEach` loops when `!todo.done`. -/
def loadTodosCounts (todos : TodoSnapshot) : Nat × Nat :=
  todos.foldl
    (fun st entry =>
      let userTodos := entry.2
      let workCount :=
        match userTodos.work with
        | some work =>
          forEachIdx (fun c todo _ => if undone todo then c + 1 else c) work st.1
        | none => st.1
      let playCount :=
        match userTodos.play with
        | some play =>
          forEachIdx (fun c todo _ => if undone todo then c + 1 else c) play st.2
        | none => st.2
      (workCount, playCount))
    (0, 0)

end Static

/-- The read `data[userId][category][index]` on a todo snapshot: the item that
the key `(userId, category, index)` addresses. -/
def snapshotItem (data : TodoSnapshot) (userId category : String) (index : Nat) :
    Option Obj :=
  match data.lookup userId with
  | none => none
  | some userTodos =>
    let bucket :=
      if category = "work" then userTodos.work
      else if category = "play" then userTodos.play
      else none
    match bucket with
    | none => none
    | some items => items[index]?

/-- The addressing key stored on a flattened todo entry. -/
def todoKey (e : Obj) : Option Val × Option Val × Option Val :=
  (e.get "userId", e.get "category", e.get "index")

/-- The entries one owner contributes to a category list: the items of the
bucket in order, each with its position. -/
def bucketEntries (userId category : String) (bucket : Option (List Obj)) : List Obj :=
  match bucket with
  | some items => items.enum.map (fun p => todoEntry p.2 userId p.1 category)
  | none => []

/-! ## Sample snapshots -/

/-- Two owners holding structurally identical reminders. -/
def twinReminders : ReminderSnapshot :=
  [("10001", [⟨[("event", Val.str "standup"), ("job_id", Val.str "j1")], by decide⟩]),
   ("10002", [⟨[("event", Val.str "standup"), ("job_id", Val.str "j1")], by decide⟩])]

/-- A todo snapshot with two owners; both hold the same first work item. -/
def sampleTodos : TodoSnapshot :=
  [("10001",
      { work := some
          [⟨[("task", Val.str "write report"), ("done", Val.bool false)], by decide⟩,
           ⟨[("task", Val.str "send mail"), ("done", Val.bool true)], by decide⟩],
        play := some [⟨[("task", Val.str "chess"), ("done", Val.bool false)], by decide⟩] }),
   ("10002",
      { work := some
          [⟨[("task", Val.str "write report"), ("done", Val.bool false)], by decide⟩],
        play := none })]

/-- A countdown whose stored payload itself has `userId` and `eventName`
fields. -/
def shadowedCountdowns : CountdownSnapshot :=
  [("10001",
      [("exam",
        ⟨[("time", Val.str "2030-01-01T00:00:00.000Z"), ("userId", Val.str "10002"),
          ("eventName", Val.str "holiday")], by decide⟩)])]

/-- The same payload as a reminder of owner 10001. -/
def shadowedReminders : ReminderSnapshot :=
  [("10001",
      [⟨[("time", Val.str "2030-01-01T00:00:00.000Z"), ("userId", Val.str "10002"),
         ("eventName", Val.str "holiday")], by decide⟩])]

/-- A countdowns response of two owners; the payload of the first owner's event
has a `userId` field of its own, naming the second owner. -/
def crossTaggedCountdowns : CountdownSnapshot :=
  [("10001",
      [("exam",
        ⟨[("time", Val.str "2030-01-01T00:00:00.000Z"), ("userId", Val.str "10002")],
          by decide⟩)]),
   ("10002",
      [("trip", ⟨[("time", Val.str "2031-06-15T08:30:00.000Z")], by decide⟩)])]

/-- The payloads of `crossTaggedCountdowns` as reminders of the same owners. -/
def crossTaggedReminders : ReminderSnapshot :=
  [("10001",
      [⟨[("time", Val.str "2030-01-01T00:00:00.000Z"), ("userId", Val.str "10002")],
         by decide⟩]),
   ("10002", [⟨[("time", Val.str "2031-06-15T08:30:00.000Z")], by decide⟩])]

/-- A reminder without event text or job id next to a complete one. -/
def malformedReminders : ReminderSnapshot :=
  [("10001",
      [⟨[("hour", Val.num 8), ("minute", Val.num 30)], by decide⟩,
       ⟨[("event", Val.str "standup"), ("job_id", Val.str "j1")], by decide⟩])]

/-- A todo without task text next to a complete one. -/
def malformedTodos : TodoSnapshot :=
  [("10001",
      { work := some
          [⟨[("done", Val.bool false)], by decide⟩,
           ⟨[("task", Val.str "write report"), ("done", Val.bool false)], by decide⟩],
        play := none })]

/-- A countdown without target time next to a complete one. -/
def malformedCountdowns : CountdownSnapshot :=
  [("10001",
      [("exam", ⟨[], by decide⟩),
       ("trip", ⟨[("time", Val.str "2030-01-01T00:00:00.000Z")], by decide⟩)])]

/-! ## Toggling a todo -/

/-- The array `items` after `items[index].done = !items[index].done`: the done
flag of the item at `index` is negated, every other item is untouched. -/
def flipDoneAt : List Obj → Nat → List Obj
  | [], _ => []
  | t :: rest, 0 => t.set "done" (Val.bool (!Js.truthy (t.get "done"))) :: rest
  | t :: rest, i + 1 => t :: flipDoneAt rest i

/-- One owner's todos after the done flag of `[category][index]` is negated. -/
def flipDoneIn (userTodos : UserTodos) (category : String) (index : Nat) : UserTodos :=
  if category = "work" then
    { userTodos with work := userTodos.work.map (fun items => flipDoneAt items index) }
  else if category = "play" then
    { userTodos with play := userTodos.play.map (fun items => flipDoneAt items index) }
  else
    userTodos

/-- The todo snapshot after the done flag of the single entry addressed by
`(userId, category, index)` is negated: the changed snapshot from which the
counts are recomputed. -/
def flipDone (data : TodoSnapshot) (userId category : String) (index : Nat) :
    TodoSnapshot :=
  data.map (fun e => if e.1 = userId then (e.1, flipDoneIn e.2 category index) else e)

/-! ## Dashboard counts and usage series -/

namespace Dashboard

/-- Source (`Dashboard.jsx`):
`Object.values(reminders).reduce((sum, arr) => sum + arr.length, 0)`. -/
def reminderCount (reminders : ReminderSnapshot) : Nat :=
  reminders.foldl (fun sum entry => sum + entry.2.length) 0

/-- Source (`Dashboard.jsx`):
`Object.values(countdowns).reduce((sum, obj) => sum + Object.keys(obj).length, 0)`. -/
def countdownCount (countdowns : CountdownSnapshot) : Nat :=
  countdowns.foldl (fun sum entry => sum + (entry.2.map Prod.fst).length) 0

end Dashboard

namespace Js

/-- The expression `a || b` for a property read `a`. -/
def orElse (a : Option Val) (b : Val) : Val :=
  match a with
  | some v => if truthy (some v) then v else b
  | none => b

end Js

/-- Source (`Usage.jsx`):
`Array.from({ length: 24 }, (_, i) => hourly.hourly_stats[i] || 0)`. -/
def hourlyValues (hourly_stats : Obj) : List Val :=
  (List.range 24).map (fun i => Js.orElse (hourly_stats.get (toString i)) (Val.num 0))

/-- The constant `weekdayKeys` of the source. -/
def weekdayKeys : List String :=
  ["Monday", "Tuesday", "Wednesday", "Thursday", "Friday", "Saturday", "Sunday"]

/-- Source (`Usage.jsx`):
`weekdayKeys.map(key => weekday.weekday_stats[key] || 0)`. -/
def weekdayValues (weekday_stats : Obj) : List Val :=
  weekdayKeys.map (fun key => Js.orElse (weekday_stats.get key) (Val.num 0))

/-- Source (`Usage.jsx`): `Object.keys(daily.daily_stats).reverse()`. -/
def dailyDates (daily_stats : Obj) : List String :=
  (daily_stats.props.map Prod.fst).reverse

/-- Source (`Usage.jsx`): `dates.map(date => daily.daily_stats[date])`. -/
def dailyValues (daily_stats : Obj) : List (Option Val) :=
  (dailyDates daily_stats).map (fun date => daily_stats.get date)

namespace Static

/-- Source (`renderHourlyChart`):
`Array.from({ length: 24 }, (_, i) => data[i] || 0)`. -/
def hourlyValues (data : Obj) : List Val :=
  (List.range 24).map (fun i => Js.orElse (data.get (toString i)) (Val.num 0))

/-- Source (`renderWeekdayChart`): `weekdayKeys.map(key => data[key] || 0)`. -/
def weekdayValues (data : Obj) : List Val :=
  ["Monday", "Tuesday", "Wednesday", "Thursday", "Friday", "Saturday", "Sunday"].map
    (fun key => Js.orElse (data.get key) (Val.num 0))

/-- Source (`renderDailyChart`): `Object.keys(data).reverse()`. -/
def dailyDates (data : Obj) : List String :=
  (data.props.map Prod.fst).reverse

/-- Source (`renderDailyChart`): `dates.map(date => data[date])`. -/
def dailyValues (data : Obj) : List (Option Val) :=
  (dailyDates data).map (fun date => data.get date)

end Static

/-- A daily response with counts for 1 and 3 January and none for 2 January. -/
def gapDaily : Obj :=
  ⟨[("2024-01-01", Val.num 5), ("2024-01-03", Val.num 7)], by decide⟩

/-- An hourly response with a count for hour 9 only. -/
def sparseHourly : Obj := ⟨[("9", Val.num 12)], by decide⟩

/-! ## Effects of the handlers -/

namespace Js

/-- The string conversion `String(x)` used by template literals and by a
`textContent` assignment (`none` is `undefined`). -/
def toText : Option Val → String
  | none => "undefined"
  | some Val.null => "null"
  | some (Val.bool b) => if b then "true" else "false"
  | some (Val.num n) => toString n
  | some (Val.str s) => s
  | some (Val.nums xs) => ",".intercalate (xs.map toString)

/-- White space and line terminators of ECMAScript, the characters
`String.prototype.trim` removes and `parseInt` skips. -/
def isWhiteSpace (c : Char) : Bool :=
  c.toNat ∈ [0x09, 0x0A, 0x0B, 0x0C, 0x0D, 0x20, 0xA0, 0x1680, 0x2028, 0x2029, 0x202F,
    0x205F, 0x3000, 0xFEFF] || (0x2000 ≤ c.toNat && c.toNat ≤ 0x200A)

/-- The method `String.prototype.trim`. -/
def trim (s : String) : String :=
  String.mk ((s.data.dropWhile isWhiteSpace).reverse.dropWhile isWhiteSpace).reverse

/-- The value of a digit character in the given radix (10 or 16). -/
def digitValue (radix : Nat) (c : Char) : Option Nat :=
  if '0' ≤ c ∧ c ≤ '9' then some (c.toNat - '0'.toNat)
  else if radix = 16 ∧ 'a' ≤ c ∧ c ≤ 'f' then some (c.toNat - 'a'.toNat + 10)
  else if radix = 16 ∧ 'A' ≤ c ∧ c ≤ 'F' then some (c.toNat - 'A'.toNat + 10)
  else none

/-- The leading digits of a character list, as digit values. -/
def leadingDigits (radix : Nat) : List Char → List Nat
  | [] => []
  | c :: rest =>
    match digitValue radix c with
    | some d => d :: leadingDigits radix rest
    | none => []

/-- The function `parseInt(s)` without a radix argument: leading white space is
skipped, a sign and a `0x` prefix are honoured, the longest run of digits is
read; `none` is `NaN`.  Exact below `2^53`. -/
def parseInt (s : String) : Option Int :=
  let cs := s.data.dropWhile isWhiteSpace
  let signed : Int × List Char :=
    match cs with
    | '-' :: rest => (-1, rest)
    | '+' :: rest => (1, rest)
    | _ => (1, cs)
  let based : Nat × List Char :=
    match signed.2 with
    | '0' :: 'x' :: rest => (16, rest)
    | '0' :: 'X' :: rest => (16, rest)
    | _ => (10, signed.2)
  let digits := leadingDigits based.1 based.2
  if digits = [] then none
  else some (signed.1 * ((digits.foldl (fun acc d => acc * based.1 + d) 0 : Nat) : Int))

/-- A number as it appears in a JSON request body: `NaN` is written `null`. -/
def jsonNumber : Option Int → Val
  | some n => Val.num n
  | none => Val.null

end Js

/-- The two food lists. -/
inductive ListName where
  | android
  | apple
  deriving DecidableEq

/-- A call of the resource gateway (`services/api.js`) issued by a handler. -/
inductive Call where
  | createReminder (userId : String) (data : Obj)
  | deleteReminder (userId jobId : Option Val)
  | createTodo (userId : String) (data : Obj)
  | updateTodo (userId category index : Option Val) (done : Bool)
  | deleteTodo (userId category index : Option Val)
  | createCountdown (userId : String) (data : Obj)
  | deleteCountdown (userId eventName : Option Val)
  | addFood (listName : ListName) (food : String)
  | deleteFood (listName : ListName) (food : String)
  | deleteImage (folder : String) (filename : Option Val)
  | uploadImage (folder : String) (fileName : String)
  deriving DecidableEq

/-- An observable effect of a handler, in the order of execution. -/
inductive Effect where
  | confirm (message : String)
  | gateway (call : Call)
  | toast (message : String) (kind : String)
  | consoleError (label : String)
  | reload (loader : String)
  deriving DecidableEq

/-- Whether an effect is a call of the gateway. -/
def Effect.isGateway : Effect → Bool
  | Effect.gateway _ => true
  | _ => false

/-- Whether an effect is a refetch of a collection. -/
def Effect.isReload : Effect → Bool
  | Effect.reload _ => true
  | _ => false

/-- Whether an effect is a user-visible notice. -/
def Effect.isToast : Effect → Bool
  | Effect.toast _ _ => true
  | _ => false

/-- Whether an effect is a user-visible notice of type `error`. -/
def Effect.isErrorToast : Effect → Bool
  | Effect.toast _ kind => kind = "error"
  | _ => false

/-! ## The dashboard's stat set -/

/-- The state `stats` of `Dashboard.jsx`. -/
structure Stats where
  reminders : Val
  todos : Val
  countdowns : Val
  messages : Val
  deriving DecidableEq

namespace Dashboard

/-- The function `updateStats` of `Dashboard.jsx`.  The four arguments after
the prior stat set are the outcomes of the four fetches joined by
`Promise.all` (`Except.error` is a rejection); the result is the stat set after
the call and the effects. -/
def updateStats (stats : Stats)
    (reminders : Except String ReminderSnapshot) (todos : Except String TodoSnapshot)
    (countdowns : Except String CountdownSnapshot) (usage : Except String Obj) :
    Stats × List Effect :=
  let attempt : Except String Stats := do
    let reminders ← reminders
    let todos ← todos
    let countdowns ← countdowns
    let usage ← usage
    let reminderCount := reminderCount reminders
    let todoCount := todoCount todos
    let countdownCount := countdownCount countdowns
    pure
      { reminders := Val.num reminderCount
        todos := Val.num todoCount
        countdowns := Val.num countdownCount
        messages := Js.orElse (usage.get "recent_7days") (Val.num 0) }
  match attempt with
  | Except.ok newStats => (newStats, [])
  | Except.error _ =>
    (stats, [Effect.consoleError "Failed to load stats:",
      Effect.toast "加载统计数据失败" "error"])

end Dashboard

/-- The text of the four stat elements of the static dashboard
(`stat-reminders`, `stat-todos`, `stat-countdowns`, `stat-messages`). -/
structure StatTexts where
  reminders : String
  todos : String
  countdowns : String
  messages : String
  deriving DecidableEq

namespace Static

/-- Source (`updateDashboardStats`):
`Object.values(reminders).reduce((sum, arr) => sum + arr.length, 0)`. -/
def reminderCount (reminders : ReminderSnapshot) : Nat :=
  reminders.foldl (fun sum entry => sum + entry.2.length) 0

/-- The `todoCount` computed by `updateDashboardStats`. -/
def todoCount (todos : TodoSnapshot) : Nat :=
  todos.foldl
    (fun todoCount entry =>
      let userTodos := entry.2
      let c1 :=
        match userTodos.work with
        | some work => todoCount + (work.filter undone).length
        | none => todoCount
      match userTodos.play with
      | some play => c1 + (play.filter undone).length
      | none => c1)
    0

/-- Source (`updateDashboardStats`):
`Object.values(countdowns).reduce((sum, obj) => sum + Object.keys(obj).length, 0)`. -/
def countdownCount (countdowns : CountdownSnapshot) : Nat :=
  countdowns.foldl (fun sum entry => sum + (entry.2.map Prod.fst).length) 0

/-- The effects of a failed `apiRequest`: its `catch` logs, shows a toast with
the error message and rethrows. -/
def apiFailure (message : String) : List Effect :=
  [Effect.consoleError "API Error:", Effect.toast ("请求失败: " ++ message) "error"]

/-- The function `updateDashboardStats` of `static/app.js`: the four requests
are awaited one after the other, each stat element being written as soon as
its request has returned. -/
def updateDashboardStats (shown : StatTexts)
    (reminders : Except String ReminderSnapshot) (todos : Except String TodoSnapshot)
    (countdowns : Except String CountdownSnapshot) (usage : Except String Obj) :
    StatTexts × List Effect :=
  match reminders with
  | Except.error m =>
    (shown, apiFailure m ++ [Effect.consoleError "Failed to load dashboard stats:"])
  | Except.ok reminders =>
    let shown := { shown with reminders := toString (reminderCount reminders) }
    match todos with
    | Except.error m =>
      (shown, apiFailure m ++ [Effect.consoleError "Failed to load dashboard stats:"])
    | Except.ok todos =>
      let shown := { shown with todos := toString (todoCount todos) }
      match countdowns with
      | Except.error m =>
        (shown, apiFailure m ++ [Effect.consoleError "Failed to load dashboard stats:"])
      | Except.ok countdowns =>
        let shown := { shown with countdowns := toString (countdownCount countdowns) }
        match usage with
        | Except.error m =>
          (shown, apiFailure m ++ [Effect.consoleError "Failed to load dashboard stats:"])
        | Except.ok usage =>
          ({ shown with
              messages := Js.toText (some (Js.orElse (usage.get "recent_7days") (Val.num 0))) },
            [])

end Static

/-! ## The mutating handlers of the React views

Each handler is given with the state of its view before the call, its
arguments, the answer of `window.confirm` where it asks, and the outcome of the
gateway call it awaits (`Except.error message` is a rejection with that
`error.message`; the outcome is used only when the call is issued).  The result
is the state of the view when the handler has run and its effects in order.  A
refetch (`loadReminders()` and the like) is not awaited by the handler: it is
recorded as `Effect.reload`, and the collection changes only when that refetch
resolves. -/

/-- An object literal `{ k1: v1, k2: v2, ... }`: the properties are defined in
order on the empty object. -/
def Obj.literal (props : List (String × Val)) : Obj :=
  props.foldl (fun acc p => acc.set p.1 p.2) Obj.empty

/-- The state `formData` of `Reminders.jsx`. -/
structure ReminderForm where
  userId : String
  event : String
  hour : String
  minute : String
  sessionId : String
  isGroup : Bool
  isDaily : Bool
  deriving DecidableEq

/-- The state of the Reminders view. -/
structure RemindersView where
  reminders : List Obj
  searchTerm : String
  isModalOpen : Bool
  formData : ReminderForm
  deriving DecidableEq

/-- The request body of a reminder creation:
`{ event, hour, minute, session_id, is_group, is_daily, mention_all: false }`. -/
def reminderBody (event : String) (hour minute : Option Int) (sessionId : String)
    (isGroup isDaily : Bool) : Obj :=
  Obj.literal [("event", Val.str event), ("hour", Js.jsonNumber hour),
    ("minute", Js.jsonNumber minute), ("session_id", Val.str sessionId),
    ("is_group", Val.bool isGroup), ("is_daily", Val.bool isDaily),
    ("mention_all", Val.bool false)]

namespace Reminders

/-- The function `handleDelete` of `Reminders.jsx`. -/
def handleDelete (view : RemindersView) (userId jobId : Option Val) (confirmed : Bool)
    (result : Except String Unit) : RemindersView × List Effect :=
  if !confirmed then
    (view, [Effect.confirm "确定要删除这个提醒吗？"])
  else
    match result with
    | Except.ok _ =>
      (view, [Effect.confirm "确定要删除这个提醒吗？",
        Effect.gateway (Call.deleteReminder userId jobId),
        Effect.toast "提醒已删除" "success", Effect.reload "loadReminders"])
    | Except.error _ =>
      (view, [Effect.confirm "确定要删除这个提醒吗？",
        Effect.gateway (Call.deleteReminder userId jobId),
        Effect.consoleError "Failed to delete reminder:", Effect.toast "删除失败" "error"])

/-- The function `handleSubmit` of `Reminders.jsx`. -/
def handleSubmit (view : RemindersView) (result : Except String Unit) :
    RemindersView × List Effect :=
  let formData := view.formData
  if formData.userId = "" ∨ formData.event = "" ∨ formData.hour = "" ∨
      formData.minute = "" ∨ formData.sessionId = "" then
    (view, [Effect.toast "请填写所有必填字段" "error"])
  else
    let call := Call.createReminder formData.userId
      (reminderBody formData.event (Js.parseInt formData.hour) (Js.parseInt formData.minute)
        formData.sessionId formData.isGroup formData.isDaily)
    match result with
    | Except.ok _ =>
      ({ view with
          isModalOpen := false
          formData :=
            { userId := "", event := "", hour := "", minute := "", sessionId := "",
              isGroup := false, isDaily := false } },
        [Effect.gateway call, Effect.toast "提醒创建成功！重启机器人后生效" "success",
          Effect.reload "loadReminders"])
    | Except.error _ =>
      (view, [Effect.gateway call, Effect.consoleError "Failed to create reminder:",
        Effect.toast "创建失败" "error"])

end Reminders

/-- The state `formData` of `Todos.jsx`. -/
structure TodoForm where
  userId : String
  task : String
  category : String
  deriving DecidableEq

/-- The state of the Todos view. -/
structure TodosView where
  todos : Todos
  isModalOpen : Bool
  formData : TodoForm
  deriving DecidableEq

namespace Todos

/-- The function `handleToggle` of `Todos.jsx`. -/
def handleToggle (view : TodosView) (userId category index : Option Val) (done : Bool)
    (result : Except String Unit) : TodosView × List Effect :=
  match result with
  | Except.ok _ =>
    (view, [Effect.gateway (Call.updateTodo userId category index done),
      Effect.reload "loadTodos"])
  | Except.error _ =>
    (view, [Effect.gateway (Call.updateTodo userId category index done),
      Effect.consoleError "Failed to toggle todo:", Effect.toast "更新失败" "error"])

/-- The function `handleDelete` of `Todos.jsx`. -/
def handleDelete (view : TodosView) (userId category index : Option Val) (confirmed : Bool)
    (result : Except String Unit) : TodosView × List Effect :=
  if !confirmed then
    (view, [Effect.confirm "确定要删除这个待办事项吗？"])
  else
    match result with
    | Except.ok _ =>
      (view, [Effect.confirm "确定要删除这个待办事项吗？",
        Effect.gateway (Call.deleteTodo userId category index),
        Effect.toast "待办事项已删除" "success", Effect.reload "loadTodos"])
    | Except.error _ =>
      (view, [Effect.confirm "确定要删除这个待办事项吗？",
        Effect.gateway (Call.deleteTodo userId category index),
        Effect.consoleError "Failed to delete todo:", Effect.toast "删除失败" "error"])

/-- The function `handleSubmit` of `Todos.jsx`. -/
def handleSubmit (view : TodosView) (result : Except String Unit) :
    TodosView × List Effect :=
  let formData := view.formData
  if formData.userId = "" ∨ formData.task = "" then
    (view, [Effect.toast "请填写所有必填字段" "error"])
  else
    let call := Call.createTodo formData.userId
      (Obj.literal [("task", Val.str formData.task), ("category", Val.str formData.category)])
    match result with
    | Except.ok _ =>
      ({ view with
          isModalOpen := false
          formData := { userId := "", task := "", category := "work" } },
        [Effect.gateway call, Effect.toast "待办事项创建成功" "success",
          Effect.reload "loadTodos"])
    | Except.error _ =>
      (view, [Effect.gateway call, Effect.consoleError "Failed to create todo:",
        Effect.toast "创建失败" "error"])

end Todos

/-- The state `formData` of `Countdowns.jsx`. -/
structure CountdownForm where
  userId : String
  eventName : String
  time : String
  deriving DecidableEq

/-- The state of the Countdowns view. -/
structure CountdownsView where
  countdowns : List Obj
  isModalOpen : Bool
  formData : CountdownForm
  deriving DecidableEq

namespace Countdowns

/-- The function `handleDelete` of `Countdowns.jsx`. -/
def handleDelete (view : CountdownsView) (userId eventName : Option Val)
    (confirmed : Bool) (result : Except String Unit) : CountdownsView × List Effect :=
  if !confirmed then
    (view, [Effect.confirm "确定要删除这个倒计时吗？"])
  else
    match result with
    | Except.ok _ =>
      (view, [Effect.confirm "确定要删除这个倒计时吗？",
        Effect.gateway (Call.deleteCountdown userId eventName),
        Effect.toast "倒计时已删除" "success", Effect.reload "loadCountdowns"])
    | Except.error _ =>
      (view, [Effect.confirm "确定要删除这个倒计时吗？",
        Effect.gateway (Call.deleteCountdown userId eventName),
        Effect.consoleError "Failed to delete countdown:", Effect.toast "删除失败" "error"])

/-- The function `handleSubmit` of `Countdowns.jsx`.  The argument `toISOString`
stands for `new Date(time).toISOString()`, `none` when the date is invalid and
the conversion throws (inside the `try` block, before the gateway call). -/
def handleSubmit (toISOString : String → Option String) (view : CountdownsView)
    (result : Except String Unit) : CountdownsView × List Effect :=
  let formData := view.formData
  if formData.userId = "" ∨ formData.eventName = "" ∨ formData.time = "" then
    (view, [Effect.toast "请填写所有必填字段" "error"])
  else
    match toISOString formData.time with
    | none =>
      (view, [Effect.consoleError "Failed to create countdown:",
        Effect.toast "创建失败" "error"])
    | some time =>
      let call := Call.createCountdown formData.userId
        (Obj.literal [("event_name", Val.str formData.eventName), ("time", Val.str time)])
      match result with
      | Except.ok _ =>
        ({ view with
            isModalOpen := false
            formData := { userId := "", eventName := "", time := "" } },
          [Effect.gateway call, Effect.toast "倒计时创建成功" "success",
            Effect.reload "loadCountdowns"])
      | Except.error _ =>
        (view, [Effect.gateway call, Effect.consoleError "Failed to create countdown:",
          Effect.toast "创建失败" "error"])

end Countdowns

/-- The state `eatData` of `Eat.jsx`. -/
structure EatData where
  android : List String
  apple : List String
  deriving DecidableEq

/-- The state `inputs` of `Eat.jsx`. -/
structure EatInputs where
  android : String
  apple : String
  deriving DecidableEq

/-- The state of the Eat view. -/
structure EatView where
  eatData : EatData
  inputs : EatInputs
  deriving DecidableEq

namespace Eat

/-- The read `inputs[listName]`. -/
def input (inputs : EatInputs) : ListName → String
  | ListName.android => inputs.android
  | ListName.apple => inputs.apple

/-- The literal `{ ...inputs, [listName]: '' }`. -/
def clearInput (inputs : EatInputs) : ListName → EatInputs
  | ListName.android => { inputs with android := "" }
  | ListName.apple => { inputs with apple := "" }

/-- The function `handleAddFood` of `Eat.jsx`. -/
def handleAddFood (view : EatView) (listName : ListName) (result : Except String Unit) :
    EatView × List Effect :=
  let foodName := Js.trim (input view.inputs listName)
  if foodName = "" then
    (view, [Effect.toast "请输入食物名称" "error"])
  else
    match result with
    | Except.ok _ =>
      ({ view with inputs := clearInput view.inputs listName },
        [Effect.gateway (Call.addFood listName foodName),
          Effect.toast ("已添加 " ++ foodName) "success", Effect.reload "loadEatData"])
    | Except.error message =>
      (view, [Effect.gateway (Call.addFood listName foodName),
        Effect.consoleError "Failed to add food:",
        if "400".data <:+: message.data then Effect.toast "该食物已存在" "error"
        else Effect.toast "添加失败" "error"])

/-- The function `handleDeleteFood` of `Eat.jsx`. -/
def handleDeleteFood (view : EatView) (listName : ListName) (foodName : String)
    (confirmed : Bool) (result : Except String Unit) : EatView × List Effect :=
  if !confirmed then
    (view, [Effect.confirm ("确定要删除 \"" ++ foodName ++ "\" 吗？")])
  else
    match result with
    | Except.ok _ =>
      (view, [Effect.confirm ("确定要删除 \"" ++ foodName ++ "\" 吗？"),
        Effect.gateway (Call.deleteFood listName foodName),
        Effect.toast ("已删除 " ++ foodName) "success", Effect.reload "loadEatData"])
    | Except.error _ =>
      (view, [Effect.confirm ("确定要删除 \"" ++ foodName ++ "\" 吗？"),
        Effect.gateway (Call.deleteFood listName foodName),
        Effect.consoleError "Failed to delete food:", Effect.toast "删除失败" "error"])

end Eat

/-- The state of the Images view. -/
structure ImagesView where
  currentFolder : String
  images : List Obj
  previewImage : Option Obj
  uploading : Bool
  deriving DecidableEq

namespace Images

/-- The function `handleDeleteImage` of `Images.jsx`. -/
def handleDeleteImage (view : ImagesView) (confirmed : Bool)
    (result : Except String Unit) : ImagesView × List Effect :=
  match view.previewImage with
  | none => (view, [])
  | some previewImage =>
    let name := Js.toText (previewImage.get "name")
    if !confirmed then
      (view, [Effect.confirm ("确定要删除 \"" ++ name ++ "\" 吗？")])
    else
      match result with
      | Except.ok _ =>
        ({ view with previewImage := none },
          [Effect.confirm ("确定要删除 \"" ++ name ++ "\" 吗？"),
            Effect.gateway (Call.deleteImage view.currentFolder (previewImage.get "name")),
            Effect.toast ("图片 " ++ name ++ " 已删除") "success",
            Effect.reload "loadImages"])
      | Except.error _ =>
        (view, [Effect.confirm ("确定要删除 \"" ++ name ++ "\" 吗？"),
          Effect.gateway (Call.deleteImage view.currentFolder (previewImage.get "name")),
          Effect.consoleError "Failed to delete image:", Effect.toast "删除失败" "error"])

end Images

/-- The add-reminder form of the static page: the values of its inputs and
whether its modal is shown. -/
structure ReminderFormDom where
  userId : String
  event : String
  hour : String
  minute : String
  sessionId : String
  isGroup : Bool
  isDaily : Bool
  modalActive : Bool
  deriving DecidableEq

namespace Static

/-- The function `submitReminder` of `static/app.js`. -/
def submitReminder (form : ReminderFormDom) (result : Except String Unit) :
    ReminderFormDom × List Effect :=
  let userId := form.userId
  let event := form.event
  let hour := Js.parseInt form.hour
  let minute := Js.parseInt form.minute
  let sessionId := form.sessionId
  if userId = "" ∨ event = "" ∨ hour = none ∨ minute = none ∨ sessionId = "" then
    (form, [Effect.toast "请填写所有必填字段" "error"])
  else
    let call := Call.createReminder userId
      (reminderBody event hour minute sessionId form.isGroup form.isDaily)
    match result with
    | Except.ok _ =>
      ({ userId := "", event := "", hour := "", minute := "", sessionId := "",
         isGroup := false, isDaily := false, modalActive := false },
        [Effect.gateway call, Effect.toast "提醒创建成功！重启机器人后生效" "success",
          Effect.reload "loadReminders"])
    | Except.error message =>
      (form, Effect.gateway call :: (apiFailure message ++
        [Effect.consoleError "Failed to create reminder:"]))

end Static

/-! ## Properties asked of a handler run -/

/-- A run whose gateway call failed, as the refetch-after-write policy wants
it: the view state is what it was, the call was issued, no refetch was started
and an error notice was shown. -/
def FailedRun {σ : Type} (before : σ) (run : σ × List Effect) : Prop :=
  run.1 = before ∧ run.2.any Effect.isGateway = true ∧
    run.2.any Effect.isReload = false ∧ run.2.any Effect.isErrorToast = true

/-- A run in which the confirmation gate answered no: the view state is what it
was, and there is no gateway call, no notice and no refetch. -/
def DeclinedRun {σ : Type} (before : σ) (run : σ × List Effect) : Prop :=
  run.1 = before ∧ run.2.any Effect.isGateway = false ∧
    run.2.any Effect.isToast = false ∧ run.2.any Effect.isReload = false

/-- A run that issues a gateway call only after the confirmation gate was asked
and answered yes. -/
def GatedRun {σ : Type} (confirmed : Bool) (run : σ × List Effect) : Prop :=
  run.2.any Effect.isGateway = true →
    confirmed = true ∧ ∃ question rest, run.2 = Effect.confirm question :: rest

/-- The static add-reminder form with hour 25 and minute 75. -/
def lateFormDom : ReminderFormDom :=
  { userId := "10001", event := "standup", hour := "25", minute := "75",
    sessionId := "s1", isGroup := false, isDaily := false, modalActive := true }

/-- The stat set of a dashboard that has not loaded yet. -/
def blankStats : Stats :=
  { reminders := Val.str "-", todos := Val.str "-", countdowns := Val.str "-",
    messages := Val.str "-" }

/-- The stat texts of a static dashboard that has not loaded yet. -/
def blankTexts : StatTexts :=
  { reminders := "-", todos := "-", countdowns := "-", messages := "-" }

/-- An Eat view with a typed food name. -/
def sampleEat : EatView :=
  { eatData := { android := ["noodles"], apple := [] },
    inputs := { android := " rice ", apple := "" } }

/-! ## Image upload -/

/-- A file of a file input: the fields `name`, `type` and `size` the handler
reads. -/
structure FileInfo where
  name : String
  type : String
  size : Nat
  deriving DecidableEq

namespace Images

/-- The constant `allowedTypes` of `handleFileSelect`. -/
def allowedTypes : List String :=
  ["image/jpeg", "image/png", "image/gif", "image/webp", "image/bmp"]

/-- The constant `maxSize` of `handleFileSelect`. -/
def maxSize : Nat := 10 * 1024 * 1024

/-- The function `handleFileSelect` of `Images.jsx`.  The argument `files` is
`event.target.files` (`none` when it is missing); the reset of the file input
in the `finally` block touches no state of the view and is left out. -/
def handleFileSelect (view : ImagesView) (files : Option (List FileInfo))
    (result : Except String Unit) : ImagesView × List Effect :=
  match files with
  | none => (view, [])
  | some [] => (view, [])
  | some (file :: _) =>
    if ¬ file.type ∈ allowedTypes then
      (view, [Effect.toast "只支持 JPG, PNG, GIF, WebP, BMP 格式的图片" "error"])
    else if file.size > maxSize then
      (view, [Effect.toast "图片大小不能超过 10MB" "error"])
    else
      match result with
      | Except.ok _ =>
        ({ view with uploading := false },
          [Effect.gateway (Call.uploadImage view.currentFolder file.name),
            Effect.toast ("图片 " ++ file.name ++ " 上传成功") "success",
            Effect.reload "loadImages"])
      | Except.error message =>
        ({ view with uploading := false },
          [Effect.gateway (Call.uploadImage view.currentFolder file.name),
            Effect.consoleError "Failed to upload image:",
            Effect.toast (if message = "" then "上传失败" else message) "error"])

end Images

/-! ## Gateway errors and endpoints -/

namespace Api

/-- The message of the error `ApiService.request` throws for a response that is
not ok: the template `HTTP ${response.status}: ${response.statusText}`. -/
def requestError (status : Nat) (statusText : String) : String :=
  "HTTP " ++ toString status ++ ": " ++ statusText

end Api

/-! ## Type label of a reminder -/

/-- The `typeLabel` computed for a reminder card in `Reminders.jsx`. -/
def typeLabel (reminder : Obj) : String :=
  let typeLabel := "一次性"
  let typeLabel := if Js.truthy (reminder.get "is_daily") then "每日" else typeLabel
  let typeLabel :=
    if Js.truthy (reminder.get "interval_days") then
      "每" ++ Js.toText (reminder.get "interval_days") ++ "天"
    else typeLabel
  let typeLabel := if Js.truthy (reminder.get "weekdays") then "周期" else typeLabel
  typeLabel

namespace Static

/-- The `typeLabel` computed by `createReminderCard` of `static/app.js`. -/
def typeLabel (reminder : Obj) : String :=
  let typeLabel := "一次性"
  let typeLabel := if Js.truthy (reminder.get "is_daily") then "每日" else typeLabel
  let typeLabel :=
    if Js.truthy (reminder.get "interval_days") then
      "每" ++ Js.toText (reminder.get "interval_days") ++ "天"
    else typeLabel
  let typeLabel := if Js.truthy (reminder.get "weekdays") then "周期" else typeLabel
  typeLabel

end Static

/-- A reminder that is daily and also has an interval of 3 days. -/
def dailyIntervalReminder : Obj :=
  ⟨[("event", Val.str "standup"), ("is_daily", Val.bool true),
    ("interval_days", Val.num 3)], by decide⟩

/-- A reminder that is not daily, has an interval of 3 days and a weekday set. -/
def intervalWeekdayReminder : Obj :=
  ⟨[("event", Val.str "standup"), ("is_daily", Val.bool false),
    ("interval_days", Val.num 3), ("weekdays", Val.nums [1, 3])], by decide⟩

/-- An Images view on the default folder. -/
def sampleImages : ImagesView :=
  { currentFolder := "pics", images := [], previewImage := none, uploading := false }

/-! ## The display-refresh tick of the Countdowns view -/

namespace Js

/-- The array literal `[...xs]`: the elements of `xs` are appended in order to
a new array. -/
def arrayCopy {α : Type} (xs : List α) : List α :=
  xs.foldl (fun acc x => acc ++ [x]) []

end Js

namespace Countdowns

/-- The function `updateTimers` of `Countdowns.jsx`:
`setCountdowns(prev => [...prev])`. -/
def updateTimers (view : CountdownsView) : CountdownsView × List Effect :=
  ({ view with countdowns := Js.arrayCopy view.countdowns }, [])

/-- The time-left strings the view renders at the instant `now`:
`formatTimeDelta(countdown.time)` for each entry.  The argument `timeValue`
stands for the parse `new Date(countdown.time)`. -/
def timeLeftStrings (timeValue : Option Val → Int) (now : Int) (view : CountdownsView) :
    List String :=
  view.countdowns.map (fun countdown => formatTimeDelta (timeValue (countdown.get "time")) now)

end Countdowns

/-! ## Request URLs for deleting an image -/

namespace Js

/-- The characters `encodeURIComponent` leaves as they are: ASCII letters and
digits and `- _ . ! ~ * ' ( )`. -/
def isUriUnreserved (c : Char) : Bool :=
  c.isAlphanum || c ∈ ['-', '_', '.', '!', '~', '*', Char.ofNat 39, '(', ')']

/-- An upper-case hexadecimal digit. -/
def hexDigit (n : Nat) : Char :=
  if n < 10 then Char.ofNat (48 + n) else Char.ofNat (55 + n)

/-- The escape `%XX` of one byte. -/
def percentEncode (b : UInt8) : List Char :=
  ['%', hexDigit (b.toNat / 16), hexDigit (b.toNat % 16)]

/-- The function `encodeURIComponent`: every character that is not unreserved
is replaced by the escapes of its UTF-8 bytes. -/
def encodeURIComponent (s : String) : String :=
  String.mk (s.data.flatMap (fun c =>
    if isUriUnreserved c then [c] else (String.utf8EncodeChar c).flatMap percentEncode))

end Js

namespace Api

/-- The URL `ApiService.deleteImage(folder, filename)` requests: the endpoint
`/api/images/${folder}/${filename}` after `API_BASE_URL`. -/
def deleteImageUrl (apiBaseUrl folder filename : String) : String :=
  apiBaseUrl ++ ("/api/images/" ++ folder ++ "/" ++ filename)

end Api

namespace Static

/-- The URL `deleteImage(folder, filename)` of `static/app.js` requests: the
endpoint `/api/images/${folder}/${encodeURIComponent(filename)}` after
`API_BASE_URL`. -/
def deleteImageUrl (apiBaseUrl folder filename : String) : String :=
  apiBaseUrl ++ ("/api/images/" ++ folder ++ "/" ++ Js.encodeURIComponent filename)

end Static

/-! ## The countdowns page of the static frontend -/

namespace Static

/-- A `.countdown-card` element: its `data-target-time` attribute and the text
of its `.countdown-time` child, with the names it shows. -/
structure CountdownCard where
  userId : String
  eventName : String
  targetTime : String
  timeLeft : String
  deriving DecidableEq

/-- The state of the countdowns page: whether `page-countdowns` is active, the
cards in `countdowns-list`, the runs of `loadCountdowns` whose request has not
returned yet, and the pending `setTimeout(updateCountdownTimers, 1000)`
timeouts. -/
structure CountdownsPage where
  active : Bool
  cards : List CountdownCard
  pendingLoads : Nat
  pendingTimers : Nat
  deriving DecidableEq

/-- The function `createCountdownCard` of `static/app.js`; `parseDate` stands
for the parse `new Date(string)` inside `formatTimeDelta`. -/
def createCountdownCard (parseDate : String → Int) (now : Int) (userId eventName : String)
    (data : Obj) : CountdownCard :=
  { userId := userId
    eventName := eventName
    targetTime := Js.toText (data.get "time")
    timeLeft := formatTimeDelta (parseDate (Js.toText (data.get "time"))) now }

/-- The part of `navigateTo(pageName)` that concerns the countdowns page: the
page is active exactly when it is the target, and `loadCountdowns()` is called
when it is. -/
def navigateTo (pageName : String) (page : CountdownsPage) : CountdownsPage :=
  if pageName = "countdowns" then
    { page with active := true, pendingLoads := page.pendingLoads + 1 }
  else
    { page with active := false }

/-- The call `loadCountdowns()` made after a successful `submitCountdown` or
`deleteCountdown`: a new request is started. -/
def reloadAfterMutation (page : CountdownsPage) : CountdownsPage :=
  { page with pendingLoads := page.pendingLoads + 1 }

/-- The body of `loadCountdowns` after its request has returned `countdowns`:
the list is emptied; without any countdown the placeholder is shown and the
function returns; otherwise a card is appended per entry and one
`updateCountdownTimers` timeout is set. -/
def loadCountdownsResolved (parseDate : String → Int) (now : Int)
    (countdowns : CountdownSnapshot) (page : CountdownsPage) : CountdownsPage :=
  let hasCountdowns := countdowns.any (fun entry => decide ((entry.2.map Prod.fst).length > 0))
  if !hasCountdowns then
    { page with cards := [], pendingLoads := page.pendingLoads - 1 }
  else
    { page with
        cards :=
          countdowns.foldl
            (fun cards entry =>
              entry.2.foldl
                (fun cards ev =>
                  cards ++ [createCountdownCard parseDate now entry.1 ev.1 ev.2])
                cards)
            []
        pendingLoads := page.pendingLoads - 1
        pendingTimers := page.pendingTimers + 1 }

/-- The function `updateCountdownTimers` of `static/app.js`, run when one of
its pending timeouts fires at the instant `now`: every card with a target time
gets its time-left text rewritten, then the timeout is set again if the
countdowns page is active. -/
def updateCountdownTimers (parseDate : String → Int) (now : Int) (page : CountdownsPage) :
    CountdownsPage :=
  let cards :=
    page.cards.map (fun card =>
      if card.targetTime ≠ "" then
        { card with timeLeft := formatTimeDelta (parseDate card.targetTime) now }
      else card)
  { page with
      cards := cards
      pendingTimers := page.pendingTimers - 1 + (if page.active then 1 else 0) }

/-- What can happen to the countdowns page. -/
inductive PageEvent where
  | navigate (pageName : String)
  | mutationSucceeded
  | loadResolved (countdowns : CountdownSnapshot) (now : Int)
  | loadFailed
  | timerFires (now : Int)

/-- One step of the countdowns page; `none` when the event cannot happen in
the state (no request in flight, no timeout pending). -/
def step (parseDate : String → Int) (page : CountdownsPage) :
    PageEvent → Option CountdownsPage
  | PageEvent.navigate pageName => some (navigateTo pageName page)
  | PageEvent.mutationSucceeded => some (reloadAfterMutation page)
  | PageEvent.loadResolved countdowns now =>
    if page.pendingLoads = 0 then none
    else some (loadCountdownsResolved parseDate now countdowns page)
  | PageEvent.loadFailed =>
    if page.pendingLoads = 0 then none
    else some { page with pendingLoads := page.pendingLoads - 1 }
  | PageEvent.timerFires now =>
    if page.pendingTimers = 0 then none
    else some (updateCountdownTimers parseDate now page)

/-- The state reached from `page` by a sequence of events, `none` when one of
them cannot happen. -/
def run (parseDate : String → Int) (page : CountdownsPage) :
    List PageEvent → Option CountdownsPage
  | [] => some page
  | event :: rest =>
    match step parseDate page event with
    | none => none
    | some next => run parseDate next rest

/-- The countdowns page when the document has loaded: not active, no card, no
request in flight, no timeout pending. -/
def initialPage : CountdownsPage :=
  { active := false, cards := [], pendingLoads := 0, pendingTimers := 0 }

end Static

/-- A date parse that knows one instant, 1 January 2030 (UTC). -/
def parseNewYear2030 (s : String) : Int :=
  if s = "2030-01-01T00:00:00.000Z" then 1893456000000 else 0

/-- A countdowns response with one event of one owner. -/
def oneCountdown : CountdownSnapshot :=
  [("10001", [("exam", ⟨[("time", Val.str "2030-01-01T00:00:00.000Z")], by decide⟩)])]

/-! ### Arithmetic of the decomposition -/

namespace TimeDelta

theorem days_eq (diff : Int) : days diff = diff / 86400000 := by
  unfold days msPerDay
  rw [Int.fdiv_eq_ediv _ (by norm_num)]
  norm_num

theorem hours_eq {diff : Int} (h : 0 ≤ diff) :
    hours diff = (diff % 86400000) / 3600000 := by
  unfold hours msPerDay msPerHour
  rw [Int.fdiv_eq_ediv _ (by norm_num), Int.tmod_eq_emod h (by norm_num)]
  norm_num

theorem minutes_eq {diff : Int} (h : 0 ≤ diff) :
    minutes diff = (diff % 3600000) / 60000 := by
  unfold minutes msPerHour msPerMinute
  rw [Int.fdiv_eq_ediv _ (by norm_num), Int.tmod_eq_emod h (by norm_num)]
  norm_num

end TimeDelta

theorem formatTimeDelta_static_eq (target now : Int) :
    Static.formatTimeDelta target now = formatTimeDelta target now := by
  rfl

theorem formatTimeDelta_of_lt {target now : Int} (h : target < now) :
    formatTimeDelta target now = "已过期" := by
  unfold formatTimeDelta
  simp only
  rw [if_pos (by omega)]

theorem formatTimeDelta_of_small {target now : Int}
    (h0 : 0 ≤ target - now) (h1 : target - now < 60000) :
    formatTimeDelta target now = "0分钟" := by
  have hd : TimeDelta.days (target - now) = 0 := by
    rw [TimeDelta.days_eq]; omega
  have hh : TimeDelta.hours (target - now) = 0 := by
    rw [TimeDelta.hours_eq h0]; omega
  have hm : TimeDelta.minutes (target - now) = 0 := by
    rw [TimeDelta.minutes_eq h0]; omega
  unfold formatTimeDelta
  simp only [hd, hh, hm]
  rw [if_neg (by omega)]
  decide

/-! ## Properties of the object model -/

namespace Js

theorem setProps_of_not_mem (k : String) (v : Val) {l : List (String × Val)}
    (h : k ∉ l.map Prod.fst) : setProps k v l = l ++ [(k, v)] := by
  induction l with
  | nil => rfl
  | cons p rest ih =>
    have hp : ¬ p.1 = k := fun e => h (by simp [e])
    have hr : k ∉ rest.map Prod.fst := fun m => h (by simp only [List.map_cons, List.mem_cons]; exact Or.inr m)
    simp [setProps, hp, ih hr]

theorem foldl_setProps_append (s d : List (String × Val))
    (h : ((d ++ s).map Prod.fst).Nodup) :
    s.foldl (fun acc p => setProps p.1 p.2 acc) d = d ++ s := by
  induction s generalizing d with
  | nil => simp
  | cons p rest ih =>
    have hp : p.1 ∉ d.map Prod.fst := by
      intro hm
      rw [List.map_append, List.nodup_append] at h
      exact h.2.2 hm (by simp)
    rw [List.foldl_cons, setProps_of_not_mem _ _ hp, ih]
    · simp
    · simpa using h

theorem getProps_setProps_self (k : String) (v : Val) (l : List (String × Val)) :
    getProps k (setProps k v l) = some v := by
  induction l with
  | nil => simp [setProps, getProps]
  | cons p rest ih =>
    by_cases h : p.1 = k
    · simp [setProps, getProps, h]
    · simp [setProps, getProps, h, ih]

theorem getProps_setProps_of_ne {k k' : String} (v : Val) (l : List (String × Val))
    (hne : k' ≠ k) : getProps k' (setProps k v l) = getProps k' l := by
  induction l with
  | nil => simp [setProps, getProps, hne.symm]
  | cons p rest ih =>
    by_cases h : p.1 = k
    · have h' : ¬ p.1 = k' := fun e => hne (e.symm.trans h)
      simp [setProps, getProps, h, h', hne.symm]
    · by_cases h2 : p.1 = k'
      · simp [setProps, getProps, h, h2, hne]
      · simp [setProps, getProps, h, h2, ih]

theorem getProps_foldl_setProps_of_absent (k : String) (s d : List (String × Val))
    (h : getProps k s = none) :
    getProps k (s.foldl (fun acc p => setProps p.1 p.2 acc) d) = getProps k d := by
  induction s generalizing d with
  | nil => rfl
  | cons p rest ih =>
    by_cases hp : p.1 = k
    · simp [getProps, hp] at h
    · have hr : getProps k rest = none := by simpa [getProps, hp] using h
      rw [List.foldl_cons, ih _ hr, getProps_setProps_of_ne _ _ (fun e => hp e.symm)]

end Js

namespace Obj

theorem ext_props {a b : Obj} (h : a.props = b.props) : a = b := by
  cases a; cases b; cases h; rfl

theorem props_foldl_set (s : List (String × Val)) (d : Obj) :
    (s.foldl (fun acc p => acc.set p.1 p.2) d).props =
      s.foldl (fun acc p => Js.setProps p.1 p.2 acc) d.props := by
  induction s generalizing d with
  | nil => rfl
  | cons p rest ih => rw [List.foldl_cons, ih]; rfl

/-- Spreading an object into the empty literal copies it. -/
theorem spread_empty (o : Obj) : spread empty o = o := by
  apply ext_props
  unfold spread
  rw [props_foldl_set, Js.foldl_setProps_append _ _ (by simpa [empty] using o.nodup)]
  simp [empty]

theorem get_set_self (o : Obj) (k : String) (v : Val) : (o.set k v).get k = some v :=
  Js.getProps_setProps_self k v o.props

theorem get_set_of_ne (o : Obj) {k k' : String} (v : Val) (hne : k' ≠ k) :
    (o.set k v).get k' = o.get k' :=
  Js.getProps_setProps_of_ne v o.props hne

end Obj

/-! ## The normalizers as concatenations -/

theorem foldl_push {α β : Type} (f : α → β) (l : List α) (init : List β) :
    l.foldl (fun acc x => acc ++ [f x]) init = init ++ l.map f := by
  induction l generalizing init with
  | nil => simp
  | cons x rest ih => simp [ih]

theorem foldl_append_flatMap {α β : Type} (g : α → List β) (l : List α) (init : List β) :
    l.foldl (fun acc x => acc ++ g x) init = init ++ l.flatMap g := by
  induction l generalizing init with
  | nil => simp
  | cons x rest ih => simp [ih]

theorem forEachFrom_push {α β : Type} (f : α → Nat → β) (n : Nat) (xs : List α)
    (init : List β) :
    forEachFrom (fun acc x i => acc ++ [f x i]) n xs init =
      init ++ (xs.enumFrom n).map (fun p => f p.2 p.1) := by
  induction xs generalizing n init with
  | nil => simp [forEachFrom]
  | cons x rest ih => simp [forEachFrom, ih, List.enumFrom]

theorem loadReminders_eq (data : ReminderSnapshot) :
    loadReminders data = data.flatMap (fun e => e.2.map (reminderEntry e.1)) := by
  unfold loadReminders
  simp only [foldl_push]
  rw [foldl_append_flatMap]
  simp

theorem loadCountdowns_eq (data : CountdownSnapshot) :
    loadCountdowns data =
      data.flatMap (fun e => e.2.map (fun ev => countdownEntry e.1 ev.1 ev.2)) := by
  unfold loadCountdowns
  simp only [foldl_push]
  rw [foldl_append_flatMap]
  simp

theorem loadTodos_step (userId category : String) (bucket : Option (List Obj))
    (acc : List Obj) :
    (match bucket with
      | some items =>
        forEachIdx (fun acc todo index => acc ++ [todoEntry todo userId index category])
          items acc
      | none => acc) = acc ++ bucketEntries userId category bucket := by
  cases bucket with
  | none => simp [bucketEntries]
  | some items =>
    simp only [forEachIdx, bucketEntries, List.enum]
    exact forEachFrom_push (fun todo index => todoEntry todo userId index category) 0 items acc

theorem loadTodos_foldl (data : TodoSnapshot) (st : Todos) :
    data.foldl
      (fun st entry =>
        let userId := entry.1
        let userTodos := entry.2
        let workTodos :=
          match userTodos.work with
          | some work =>
            forEachIdx (fun acc todo index => acc ++ [todoEntry todo userId index "work"])
              work st.work
          | none => st.work
        let playTodos :=
          match userTodos.play with
          | some play =>
            forEachIdx (fun acc todo index => acc ++ [todoEntry todo userId index "play"])
              play st.play
          | none => st.play
        ({ work := workTodos, play := playTodos } : Todos))
      st =
    { work := st.work ++ data.flatMap (fun e => bucketEntries e.1 "work" e.2.work),
      play := st.play ++ data.flatMap (fun e => bucketEntries e.1 "play" e.2.play) } := by
  induction data generalizing st with
  | nil => simp
  | cons e rest ih =>
    rw [List.foldl_cons, ih]
    simp only [loadTodos_step, List.flatMap_cons, List.append_assoc]

theorem loadTodos_eq (data : TodoSnapshot) :
    loadTodos data =
      { work := data.flatMap (fun e => bucketEntries e.1 "work" e.2.work),
        play := data.flatMap (fun e => bucketEntries e.1 "play" e.2.play) } := by
  unfold loadTodos
  rw [loadTodos_foldl]
  simp

/-! ## Entries and their fields -/

theorem reminderEntry_eq (userId : String) (reminder : Obj) :
    reminderEntry userId reminder = reminder.set "userId" (Val.str userId) := by
  unfold reminderEntry
  rw [Obj.spread_empty]

theorem todoEntry_eq (todo : Obj) (userId : String) (index : Nat) (category : String) :
    todoEntry todo userId index category =
      ((todo.set "userId" (Val.str userId)).set "index" (Val.num index)).set
        "category" (Val.str category) := by
  unfold todoEntry
  rw [Obj.spread_empty]

theorem todoEntry_category (todo : Obj) (userId : String) (index : Nat) (category : String) :
    (todoEntry todo userId index category).get "category" = some (Val.str category) := by
  rw [todoEntry_eq, Obj.get_set_self]

theorem todoEntry_index (todo : Obj) (userId : String) (index : Nat) (category : String) :
    (todoEntry todo userId index category).get "index" = some (Val.num index) := by
  rw [todoEntry_eq, Obj.get_set_of_ne _ _ (by decide), Obj.get_set_self]

theorem todoEntry_userId (todo : Obj) (userId : String) (index : Nat) (category : String) :
    (todoEntry todo userId index category).get "userId" = some (Val.str userId) := by
  rw [todoEntry_eq, Obj.get_set_of_ne _ _ (by decide), Obj.get_set_of_ne _ _ (by decide),
    Obj.get_set_self]

theorem todoEntry_other (todo : Obj) (userId : String) (index : Nat) (category : String)
    {k : String} (h1 : k ≠ "userId") (h2 : k ≠ "index") (h3 : k ≠ "category") :
    (todoEntry todo userId index category).get k = todo.get k := by
  rw [todoEntry_eq, Obj.get_set_of_ne _ _ h3, Obj.get_set_of_ne _ _ h2,
    Obj.get_set_of_ne _ _ h1]

theorem todoKey_todoEntry (todo : Obj) (userId : String) (index : Nat) (category : String) :
    todoKey (todoEntry todo userId index category) =
      (some (Val.str userId), some (Val.str category), some (Val.num index)) := by
  unfold todoKey
  rw [todoEntry_userId, todoEntry_category, todoEntry_index]

theorem undone_todoEntry (todo : Obj) (userId : String) (index : Nat) (category : String) :
    undone (todoEntry todo userId index category) = undone todo := by
  unfold undone
  rw [todoEntry_other _ _ _ _ (by decide) (by decide) (by decide)]

theorem length_bucketEntries (userId category : String) (bucket : Option (List Obj)) :
    (bucketEntries userId category bucket).length = (bucket.getD []).length := by
  cases bucket <;> simp [bucketEntries]

/-- A countdown payload without `userId` and `eventName` fields yields an entry
whose delete arguments are the owner id and the event name. -/
theorem deleteArgs_countdownEntry_of_absent (userId eventName : String) (payload : Obj)
    (h1 : payload.get "userId" = none) (h2 : payload.get "eventName" = none) :
    deleteArgs (countdownEntry userId eventName payload) =
      (some (Val.str userId), some (Val.str eventName)) := by
  unfold deleteArgs countdownEntry Obj.spread Obj.get
  rw [Obj.props_foldl_set, Js.getProps_foldl_setProps_of_absent _ _ _ h1,
    Js.getProps_foldl_setProps_of_absent _ _ _ h2]
  rfl

/-! ## Claims on the time-left formatter -/

/-- C1 (refuted as stated): at `target == now` both frontends return the
minute-only string with 0 minutes, not the expired sentinel, although
`target <= now` holds. -/
theorem C1_counterexample :
    (1700000000000 : Int) ≤ 1700000000000 ∧
    formatTimeDelta 1700000000000 1700000000000 = "0分钟" ∧
    formatTimeDelta 1700000000000 1700000000000 ≠ expired ∧
    Static.formatTimeDelta 1700000000000 1700000000000 ≠ expired := by
  decide

/-- C1 (amended): in both frontends the guard is `diff < 0`: every target
strictly before `now` yields the expired sentinel, and `target == now` yields
the minute-only string with 0 minutes. -/
theorem C1_formatTimeDelta_expired (target now : Int) :
    (target < now →
      formatTimeDelta target now = expired ∧
      Static.formatTimeDelta target now = expired) ∧
    (target = now →
      formatTimeDelta target now = "0分钟" ∧
      Static.formatTimeDelta target now = "0分钟") := by
  refine ⟨fun h => ?_, fun h => ?_⟩
  · rw [formatTimeDelta_static_eq, formatTimeDelta_of_lt h]
    exact ⟨rfl, rfl⟩
  · rw [formatTimeDelta_static_eq,
      formatTimeDelta_of_small (by omega) (by omega)]
    exact ⟨rfl, rfl⟩

/-- Instance of C1 (amended) one millisecond after the target and exactly at it. -/
theorem C1_formatTimeDelta_expired_witness :
    ((1699999999999 : Int) < 1700000000000 ∧
      formatTimeDelta 1699999999999 1700000000000 = expired ∧
      Static.formatTimeDelta 1699999999999 1700000000000 = expired) ∧
    ((1700000000000 : Int) = 1700000000000 ∧
      formatTimeDelta 1700000000000 1700000000000 = "0分钟" ∧
      Static.formatTimeDelta 1700000000000 1700000000000 = "0分钟") :=
  ⟨⟨by decide, (C1_formatTimeDelta_expired 1699999999999 1700000000000).1 (by decide)⟩,
   ⟨rfl, (C1_formatTimeDelta_expired 1700000000000 1700000000000).2 rfl⟩⟩

/-- C2: for `target > now`, with `r = target - now`, `d = floor (r / 86400000)`,
`h = floor ((r mod 86400000) / 3600000)` and `m = floor ((r mod 3600000) / 60000)`,
`formatTimeDelta` returns the day-and-hour string when `d > 0`, otherwise the
hour-and-minute string when `h > 0`, otherwise the minute-only string; 25 hours
gives "1天1小时" and 90 minutes gives "1小时30分钟". -/
theorem C2_formatTimeDelta_selection (target now : Int) (hlt : now < target) :
    formatTimeDelta target now =
      (if (target - now) / 86400000 > 0 then
        toString ((target - now) / 86400000) ++ "天" ++
          toString ((target - now) % 86400000 / 3600000) ++ "小时"
      else if (target - now) % 86400000 / 3600000 > 0 then
        toString ((target - now) % 86400000 / 3600000) ++ "小时" ++
          toString ((target - now) % 3600000 / 60000) ++ "分钟"
      else
        toString ((target - now) % 3600000 / 60000) ++ "分钟") ∧
    formatTimeDelta (now + 25 * 3600000) now = "1天1小时" ∧
    formatTimeDelta (now + 90 * 60000) now = "1小时30分钟" := by
  have h0 : 0 ≤ target - now := by omega
  refine ⟨?_, ?_, ?_⟩
  · unfold formatTimeDelta
    simp only
    rw [if_neg (by omega), TimeDelta.days_eq, TimeDelta.hours_eq h0,
      TimeDelta.minutes_eq h0]
  · have e : now + 25 * 3600000 - now = 90000000 := by omega
    unfold formatTimeDelta
    simp only [e]
    decide
  · have e : now + 90 * 60000 - now = 5400000 := by omega
    unfold formatTimeDelta
    simp only [e]
    decide

/-- Instance of C2 at a target 25 hours after `now`. -/
theorem C2_formatTimeDelta_selection_witness :
    (1700000000000 : Int) < 1700090000000 ∧
    formatTimeDelta 1700090000000 1700000000000 = "1天1小时" :=
  ⟨by decide,
   (C2_formatTimeDelta_selection 1700090000000 1700000000000 (by decide)).1.trans
     (by decide)⟩

/-- C3: for `target > now` the computed days, hours and minutes satisfy
`0 <= hours <= 23`, `0 <= minutes <= 59` and
`days*86400000 + hours*3600000 + minutes*60000 <= target - now
  < days*86400000 + hours*3600000 + minutes*60000 + 60000`:
the leftover seconds are discarded, never rounded up. -/
theorem C3_decomposition_bounds (target now : Int) (hlt : now < target) :
    0 ≤ TimeDelta.days (target - now) ∧
    0 ≤ TimeDelta.hours (target - now) ∧ TimeDelta.hours (target - now) ≤ 23 ∧
    0 ≤ TimeDelta.minutes (target - now) ∧ TimeDelta.minutes (target - now) ≤ 59 ∧
    TimeDelta.days (target - now) * 86400000
        + TimeDelta.hours (target - now) * 3600000
        + TimeDelta.minutes (target - now) * 60000 ≤ target - now ∧
    target - now < TimeDelta.days (target - now) * 86400000
        + TimeDelta.hours (target - now) * 3600000
        + TimeDelta.minutes (target - now) * 60000 + 60000 := by
  have h0 : 0 ≤ target - now := by omega
  rw [TimeDelta.days_eq, TimeDelta.hours_eq h0, TimeDelta.minutes_eq h0]
  omega

/-- Instance of C3 at a target 25 hours and 45 seconds after `now`. -/
theorem C3_decomposition_bounds_witness :
    (1700000000000 : Int) < 1700090045000 ∧
    TimeDelta.hours (1700090045000 - 1700000000000) ≤ 23 ∧
    (1700090045000 : Int) - 1700000000000
      < TimeDelta.days (1700090045000 - 1700000000000) * 86400000
        + TimeDelta.hours (1700090045000 - 1700000000000) * 3600000
        + TimeDelta.minutes (1700090045000 - 1700000000000) * 60000 + 60000 :=
  have h := C3_decomposition_bounds 1700090045000 1700000000000 (by decide)
  ⟨by decide, h.2.2.1, h.2.2.2.2.2.2⟩

/-- C4: whenever `0 < target - now < 60000` ms, `formatTimeDelta` returns the
minute-only string with 0 minutes, which is neither the expired sentinel nor
the 1-minute string. -/
theorem C4_formatTimeDelta_sub_minute (target now : Int)
    (hpos : 0 < target - now) (hlt : target - now < 60000) :
    formatTimeDelta target now = "0分钟" ∧
    formatTimeDelta target now ≠ expired ∧
    formatTimeDelta target now ≠ "1分钟" := by
  rw [formatTimeDelta_of_small (by omega) hlt]
  decide

/-- Instance of C4 at a target 45 seconds after `now`. -/
theorem C4_formatTimeDelta_sub_minute_witness :
    (0 : Int) < 1700000045000 - 1700000000000 ∧
    (1700000045000 : Int) - 1700000000000 < 60000 ∧
    formatTimeDelta 1700000045000 1700000000000 = "0分钟" :=
  ⟨by decide, by decide,
   (C4_formatTimeDelta_sub_minute 1700000045000 1700000000000
      (by decide) (by decide)).1⟩

/-! ## Claims on the normalizers -/

theorem sum_map_const {α : Type} (f : α → Nat) (M : Nat) (l : List α)
    (h : ∀ e ∈ l, f e = M) : (l.map f).sum = l.length * M := by
  induction l with
  | nil => simp
  | cons x rest ih =>
    have hx : f x = M := h x (List.mem_cons_self x rest)
    have hr : ∀ e ∈ rest, f e = M := fun e he => h e (List.mem_cons_of_mem x he)
    simp only [List.map_cons, List.sum_cons, List.length_cons, hx, ih hr]
    ring

theorem length_loadReminders (rs : ReminderSnapshot) :
    (loadReminders rs).length = (rs.map (fun e => e.2.length)).sum := by
  rw [loadReminders_eq, List.length_flatMap]
  congr 1
  apply List.map_congr_left
  intro e _
  simp

theorem length_loadCountdowns (cs : CountdownSnapshot) :
    (loadCountdowns cs).length = (cs.map (fun e => e.2.length)).sum := by
  rw [loadCountdowns_eq, List.length_flatMap]
  congr 1
  apply List.map_congr_left
  intro e _
  simp

theorem length_loadTodos_work (ts : TodoSnapshot) :
    (loadTodos ts).work.length = (ts.map (fun e => (e.2.work.getD []).length)).sum := by
  rw [loadTodos_eq]
  simp only [List.length_flatMap]
  congr 1
  apply List.map_congr_left
  intro e _
  simp [length_bucketEntries]

theorem length_loadTodos_play (ts : TodoSnapshot) :
    (loadTodos ts).play.length = (ts.map (fun e => (e.2.play.getD []).length)).sum := by
  rw [loadTodos_eq]
  simp only [List.length_flatMap]
  congr 1
  apply List.map_congr_left
  intro e _
  simp [length_bucketEntries]

/-- C5: the flat list of `loadReminders` has as many entries as the owners'
reminder arrays together, the work and play lists of `loadTodos` as many as the
owners' work and play arrays together (an absent array counting for none), the
list of `loadCountdowns` as many as the owners' event maps together; with N
owners of M entries each that is N*M, so entries of different owners are all
kept, none merged or deduplicated. -/
theorem C5_normalizer_lengths (rs : ReminderSnapshot) (ts : TodoSnapshot)
    (cs : CountdownSnapshot) :
    (loadReminders rs).length = (rs.map (fun e => e.2.length)).sum ∧
    (loadTodos ts).work.length = (ts.map (fun e => (e.2.work.getD []).length)).sum ∧
    (loadTodos ts).play.length = (ts.map (fun e => (e.2.play.getD []).length)).sum ∧
    (loadCountdowns cs).length = (cs.map (fun e => e.2.length)).sum ∧
    (∀ M : Nat, (∀ e ∈ rs, e.2.length = M) →
      (loadReminders rs).length = rs.length * M) ∧
    (∀ M : Nat, (∀ e ∈ ts, (e.2.work.getD []).length = M) →
      (loadTodos ts).work.length = ts.length * M) ∧
    (∀ M : Nat, (∀ e ∈ ts, (e.2.play.getD []).length = M) →
      (loadTodos ts).play.length = ts.length * M) ∧
    (∀ M : Nat, (∀ e ∈ cs, e.2.length = M) →
      (loadCountdowns cs).length = cs.length * M) := by
  refine ⟨length_loadReminders rs, length_loadTodos_work ts, length_loadTodos_play ts,
    length_loadCountdowns cs, ?_, ?_, ?_, ?_⟩
  · intro M h
    rw [length_loadReminders, sum_map_const _ M rs h]
  · intro M h
    rw [length_loadTodos_work, sum_map_const _ M ts h]
  · intro M h
    rw [length_loadTodos_play, sum_map_const _ M ts h]
  · intro M h
    rw [length_loadCountdowns, sum_map_const _ M cs h]

/-- Instance of C5: two owners with one identical reminder each give two entries. -/
theorem C5_normalizer_lengths_witness :
    (∀ e ∈ twinReminders, e.2.length = 1) ∧
    (loadReminders twinReminders).length = 2 * 1 :=
  ⟨by decide, (C5_normalizer_lengths twinReminders [] []).2.2.2.2.1 1 (by decide)⟩

theorem lookup_of_mem_nodup {β : Type} (data : List (String × β))
    (hk : (data.map Prod.fst).Nodup) {u : String} {b : β} (hm : (u, b) ∈ data) :
    data.lookup u = some b := by
  induction data with
  | nil => simp at hm
  | cons x rest ih =>
    obtain ⟨k, v⟩ := x
    rw [List.map_cons, List.nodup_cons] at hk
    rw [List.mem_cons] at hm
    rcases hm with hm | hm
    · cases hm
      simp [List.lookup]
    · have hne : u ≠ k := by
        intro e
        apply hk.1
        rw [← e]
        exact List.mem_map.mpr ⟨(u, b), hm, rfl⟩
      have hb : (u == k) = false := by simpa using hne
      rw [List.lookup_cons, hb]
      exact ih hk.2 hm

theorem map_todoKey_bucketEntries (userId category : String) (bucket : Option (List Obj)) :
    (bucketEntries userId category bucket).map todoKey =
      (List.range (bucket.getD []).length).map
        (fun (i : Nat) => (some (Val.str userId), some (Val.str category), some (Val.num i))) := by
  cases bucket with
  | none => simp [bucketEntries]
  | some items =>
    simp only [bucketEntries, List.map_map, Option.getD_some]
    rw [← List.enum_map_fst, List.map_map]
    apply List.map_congr_left
    intro p _
    simp [todoKey_todoEntry]

theorem nodup_keys_bucketEntries (userId category : String) (bucket : Option (List Obj)) :
    ((bucketEntries userId category bucket).map todoKey).Nodup := by
  rw [map_todoKey_bucketEntries]
  apply List.Nodup.map _ (List.nodup_range _)
  intro i j h
  simp only [Prod.mk.injEq, Option.some.injEq, Val.num.injEq, true_and] at h
  exact_mod_cast h

theorem key_of_mem_bucketEntries {userId category : String} {bucket : Option (List Obj)}
    {key : Option Val × Option Val × Option Val}
    (h : key ∈ (bucketEntries userId category bucket).map todoKey) :
    key.1 = some (Val.str userId) ∧ key.2.1 = some (Val.str category) := by
  rw [map_todoKey_bucketEntries, List.mem_map] at h
  obtain ⟨i, _, rfl⟩ := h
  exact ⟨rfl, rfl⟩

theorem nodup_keys_flatMap (category : String) (sel : UserTodos → Option (List Obj))
    (data : TodoSnapshot) (hk : (data.map Prod.fst).Nodup) :
    ((data.flatMap (fun x => bucketEntries x.1 category (sel x.2))).map todoKey).Nodup := by
  induction data with
  | nil => simp
  | cons x rest ih =>
    rw [List.map_cons, List.nodup_cons] at hk
    rw [List.flatMap_cons, List.map_append, List.nodup_append]
    refine ⟨nodup_keys_bucketEntries _ _ _, ih hk.2, ?_⟩
    intro key h1 h2
    have k1 := (key_of_mem_bucketEntries h1).1
    rw [List.map_flatMap, List.mem_flatMap] at h2
    obtain ⟨y, hy, h3⟩ := h2
    have k2 := (key_of_mem_bucketEntries h3).1
    rw [k1] at k2
    simp only [Option.some.injEq, Val.str.injEq] at k2
    apply hk.1
    rw [k2]
    exact List.mem_map_of_mem Prod.fst hy

theorem category_of_mem_flatMap (category : String) (sel : UserTodos → Option (List Obj))
    (data : TodoSnapshot) {key : Option Val × Option Val × Option Val}
    (h : key ∈ (data.flatMap (fun x => bucketEntries x.1 category (sel x.2))).map todoKey) :
    key.2.1 = some (Val.str category) := by
  rw [List.map_flatMap, List.mem_flatMap] at h
  obtain ⟨y, _, h3⟩ := h
  exact (key_of_mem_bucketEntries h3).2

theorem addressed_of_mem_flatMap (category : String) (sel : UserTodos → Option (List Obj))
    (hsel : ∀ ut : UserTodos,
      (if category = "work" then ut.work
        else if category = "play" then ut.play else none) = sel ut)
    (data : TodoSnapshot) (hk : (data.map Prod.fst).Nodup) {e : Obj}
    (he : e ∈ data.flatMap (fun x => bucketEntries x.1 category (sel x.2))) :
    ∃ (u : String) (i : Nat) (todo : Obj),
      todoKey e = (some (Val.str u), some (Val.str category), some (Val.num i)) ∧
      snapshotItem data u category i = some todo ∧
      e.get "task" = todo.get "task" ∧ e.get "done" = todo.get "done" := by
  rw [List.mem_flatMap] at he
  obtain ⟨x, hx, hb⟩ := he
  obtain ⟨u, ut⟩ := x
  cases hw : sel ut with
  | none => simp [hw, bucketEntries] at hb
  | some items =>
    simp only [hw, bucketEntries, List.mem_map] at hb
    obtain ⟨p, hp, rfl⟩ := hb
    obtain ⟨i, todo⟩ := p
    rw [List.mk_mem_enum_iff_getElem?] at hp
    refine ⟨u, i, todo, todoKey_todoEntry _ _ _ _, ?_,
      todoEntry_other _ _ _ _ (by decide) (by decide) (by decide),
      todoEntry_other _ _ _ _ (by decide) (by decide) (by decide)⟩
    unfold snapshotItem
    rw [lookup_of_mem_nodup data hk hx]
    simp only [hsel, hw]
    exact hp

/-- C6: every entry of the work (play) list built by `loadTodos` carries the
category of its list, an owner id and an index such that the item at that
position of `snapshot[userId][category]` exists and has the entry's task and
done values; no two flattened entries share the same
(userId, category, index). -/
theorem C6_todo_keys_address_entries (data : TodoSnapshot)
    (hk : (data.map Prod.fst).Nodup) :
    (∀ e ∈ (loadTodos data).work, ∃ (u : String) (i : Nat) (todo : Obj),
      todoKey e = (some (Val.str u), some (Val.str "work"), some (Val.num i)) ∧
      snapshotItem data u "work" i = some todo ∧
      e.get "task" = todo.get "task" ∧ e.get "done" = todo.get "done") ∧
    (∀ e ∈ (loadTodos data).play, ∃ (u : String) (i : Nat) (todo : Obj),
      todoKey e = (some (Val.str u), some (Val.str "play"), some (Val.num i)) ∧
      snapshotItem data u "play" i = some todo ∧
      e.get "task" = todo.get "task" ∧ e.get "done" = todo.get "done") ∧
    (((loadTodos data).work ++ (loadTodos data).play).map todoKey).Nodup := by
  rw [loadTodos_eq]
  refine ⟨fun e he => ?_, fun e he => ?_, ?_⟩
  · exact addressed_of_mem_flatMap "work" UserTodos.work (fun _ => by simp) data hk he
  · exact addressed_of_mem_flatMap "play" UserTodos.play (fun _ => by simp) data hk he
  · rw [List.map_append, List.nodup_append]
    refine ⟨nodup_keys_flatMap "work" UserTodos.work data hk,
      nodup_keys_flatMap "play" UserTodos.play data hk, ?_⟩
    intro key h1 h2
    have c1 := category_of_mem_flatMap "work" UserTodos.work data h1
    have c2 := category_of_mem_flatMap "play" UserTodos.play data h2
    rw [c1] at c2
    exact absurd c2 (by decide)

/-- Instance of C6 on `sampleTodos`, whose owner ids are distinct. -/
theorem C6_todo_keys_address_entries_witness :
    (sampleTodos.map Prod.fst).Nodup ∧
    (((loadTodos sampleTodos).work ++ (loadTodos sampleTodos).play).map todoKey).Nodup :=
  ⟨by decide, (C6_todo_keys_address_entries sampleTodos (by decide)).2.2⟩

/-- C7 (code defect): `loadCountdowns` spreads the payload after the key
fields, so a payload with its own `userId` / `eventName` replaces the owner id
and event name on the entry, and the delete button passes the payload's pair;
`loadReminders`, which spreads first, keeps the owner id for the same payload. -/
theorem C7_countdown_key_shadowed :
    (loadCountdowns shadowedCountdowns).map deleteArgs =
      [(some (Val.str "10002"), some (Val.str "holiday"))] ∧
    (loadCountdowns shadowedCountdowns).map deleteArgs ≠
      [(some (Val.str "10001"), some (Val.str "exam"))] ∧
    (loadReminders shadowedReminders).map (fun e => e.get "userId") =
      [some (Val.str "10001")] := by
  decide

/-- Each normalizer's list is the concatenation, in the owner order of
`Object.entries`, of the owner's entries in their original order, nothing being
re-sorted.  A reminder entry is the reminder with `userId` set to the owner id;
a todo entry is the item with `userId`, `index` and `category` set to the owner
id, the position and the list's category; a countdown entry is built from the
owner id, the event name and the payload, and carries the owner id and the
event name when the payload has no `userId` and no `eventName` field. -/
theorem normalizers_keep_order (rs : ReminderSnapshot) (ts : TodoSnapshot)
    (cs : CountdownSnapshot) :
    loadReminders rs =
      (rs.map (fun e => e.2.map (fun r => r.set "userId" (Val.str e.1)))).flatten ∧
    (loadTodos ts).work =
      (ts.map (fun e =>
        (e.2.work.getD []).enum.map (fun p =>
          ((p.2.set "userId" (Val.str e.1)).set "index" (Val.num p.1)).set
            "category" (Val.str "work")))).flatten ∧
    (loadTodos ts).play =
      (ts.map (fun e =>
        (e.2.play.getD []).enum.map (fun p =>
          ((p.2.set "userId" (Val.str e.1)).set "index" (Val.num p.1)).set
            "category" (Val.str "play")))).flatten ∧
    loadCountdowns cs =
      (cs.map (fun e => e.2.map (fun ev => countdownEntry e.1 ev.1 ev.2))).flatten ∧
    (∀ (u n : String) (payload : Obj),
      payload.get "userId" = none → payload.get "eventName" = none →
      (countdownEntry u n payload).get "userId" = some (Val.str u) ∧
      (countdownEntry u n payload).get "eventName" = some (Val.str n)) := by
  have hb : ∀ (u c : String) (b : Option (List Obj)),
      bucketEntries u c b =
        (b.getD []).enum.map (fun p =>
          ((p.2.set "userId" (Val.str u)).set "index" (Val.num p.1)).set
            "category" (Val.str c)) := by
    intro u c b
    cases b with
    | none => simp [bucketEntries]
    | some items =>
      simp only [bucketEntries, Option.getD_some]
      apply List.map_congr_left
      intro p _
      exact todoEntry_eq p.2 u p.1 c
  refine ⟨?_, ?_, ?_, ?_, ?_⟩
  · have hr : ∀ u : String,
        reminderEntry u = fun r => r.set "userId" (Val.str u) :=
      fun u => funext (reminderEntry_eq u)
    rw [loadReminders_eq, List.flatMap_def]
    simp only [hr]
  · rw [loadTodos_eq]
    simp only [List.flatMap_def, hb]
  · rw [loadTodos_eq]
    simp only [List.flatMap_def, hb]
  · rw [loadCountdowns_eq, List.flatMap_def]
  · intro u n payload h1 h2
    have h := deleteArgs_countdownEntry_of_absent u n payload h1 h2
    unfold deleteArgs at h
    exact ⟨congrArg Prod.fst h, congrArg Prod.snd h⟩

/-- C8 (code defect): in the list `loadCountdowns` builds from
`crossTaggedCountdowns` the two events follow each other in the owner order of
the response (exam of owner 10001, then trip of owner 10002), but the first
entry is tagged with owner id 10002, the `userId` field of its payload, not
with its owner 10001; `loadReminders`, for the same payloads, tags each entry
with its owner. -/
theorem C8_countdown_entries_lose_owner_tag :
    (loadCountdowns crossTaggedCountdowns).map (fun e => e.get "time") =
      [some (Val.str "2030-01-01T00:00:00.000Z"),
        some (Val.str "2031-06-15T08:30:00.000Z")] ∧
    (loadCountdowns crossTaggedCountdowns).map (fun e => e.get "eventName") =
      [some (Val.str "exam"), some (Val.str "trip")] ∧
    (loadCountdowns crossTaggedCountdowns).map (fun e => e.get "userId") =
      [some (Val.str "10002"), some (Val.str "10002")] ∧
    (loadCountdowns crossTaggedCountdowns).map (fun e => e.get "userId") ≠
      crossTaggedCountdowns.flatMap (fun e => e.2.map (fun _ => some (Val.str e.1))) ∧
    (loadReminders crossTaggedReminders).map (fun e => e.get "userId") =
      crossTaggedReminders.flatMap (fun e => e.2.map (fun _ => some (Val.str e.1))) := by
  decide

/-- C9 (refuted as stated): the normalizers keep an entry that lacks a required
field: the reminder without event text and job id, the todo without task text
and the countdown without target time are all in the flattened results. -/
theorem C9_counterexample :
    (loadReminders malformedReminders).map (fun e => (e.get "event", e.get "job_id")) =
      [(none, none), (some (Val.str "standup"), some (Val.str "j1"))] ∧
    ((loadTodos malformedTodos).work).map (fun e => e.get "task") =
      [none, some (Val.str "write report")] ∧
    (loadCountdowns malformedCountdowns).map (fun e => e.get "time") =
      [none, some (Val.str "2030-01-01T00:00:00.000Z")] := by
  decide

/-- C9 (amended): the normalizers validate nothing and drop nothing: every
reminder, every todo item (with its position) and every countdown of the
snapshot, with or without its required fields, yields its entry in the
flattened result. -/
theorem C9_normalizers_keep_every_entry (rs : ReminderSnapshot) (ts : TodoSnapshot)
    (cs : CountdownSnapshot) :
    (∀ (u : String) (items : List Obj) (r : Obj),
      (u, items) ∈ rs → r ∈ items → reminderEntry u r ∈ loadReminders rs) ∧
    (∀ (u : String) (ut : UserTodos) (items : List Obj) (i : Nat) (t : Obj),
      (u, ut) ∈ ts → ut.work = some items → items[i]? = some t →
        todoEntry t u i "work" ∈ (loadTodos ts).work) ∧
    (∀ (u : String) (ut : UserTodos) (items : List Obj) (i : Nat) (t : Obj),
      (u, ut) ∈ ts → ut.play = some items → items[i]? = some t →
        todoEntry t u i "play" ∈ (loadTodos ts).play) ∧
    (∀ (u : String) (evs : List (String × Obj)) (n : String) (p : Obj),
      (u, evs) ∈ cs → (n, p) ∈ evs → countdownEntry u n p ∈ loadCountdowns cs) := by
  refine ⟨?_, ?_, ?_, ?_⟩
  · intro u items r hu hr
    rw [loadReminders_eq, List.mem_flatMap]
    exact ⟨(u, items), hu, List.mem_map_of_mem _ hr⟩
  · intro u ut items i t hu hw hi
    rw [loadTodos_eq]
    simp only [List.mem_flatMap]
    refine ⟨(u, ut), hu, ?_⟩
    simp only [hw, bucketEntries, List.mem_map]
    exact ⟨(i, t), List.mk_mem_enum_iff_getElem?.mpr hi, rfl⟩
  · intro u ut items i t hu hw hi
    rw [loadTodos_eq]
    simp only [List.mem_flatMap]
    refine ⟨(u, ut), hu, ?_⟩
    simp only [hw, bucketEntries, List.mem_map]
    exact ⟨(i, t), List.mk_mem_enum_iff_getElem?.mpr hi, rfl⟩
  · intro u evs n p hu hp
    rw [loadCountdowns_eq, List.mem_flatMap]
    exact ⟨(u, evs), hu, List.mem_map.mpr ⟨(n, p), hp, rfl⟩⟩

/-- Instance of C9 (amended): both reminders of `malformedReminders` are kept. -/
theorem C9_normalizers_keep_every_entry_witness :
    reminderEntry "10001" ⟨[("hour", Val.num 8), ("minute", Val.num 30)], by decide⟩ ∈
      loadReminders malformedReminders ∧
    reminderEntry "10001"
        ⟨[("event", Val.str "standup"), ("job_id", Val.str "j1")], by decide⟩ ∈
      loadReminders malformedReminders :=
  ⟨(C9_normalizers_keep_every_entry malformedReminders [] []).1 "10001" _ _
      (List.mem_cons_self _ _) (List.mem_cons_self _ _),
   (C9_normalizers_keep_every_entry malformedReminders [] []).1 "10001" _ _
      (List.mem_cons_self _ _) (List.mem_cons_of_mem _ (List.mem_cons_self _ _))⟩

/-! ## Claims on the derived counts -/

theorem countP_bucketEntries (userId category : String) (bucket : Option (List Obj)) :
    (bucketEntries userId category bucket).countP undone =
      (bucket.getD []).countP undone := by
  cases bucket with
  | none => simp [bucketEntries]
  | some items =>
    simp only [bucketEntries, Option.getD_some, List.countP_map]
    have hf : (undone ∘ fun p : Nat × Obj => todoEntry p.2 userId p.1 category) =
        undone ∘ Prod.snd := by
      funext p
      simp [undone_todoEntry]
    rw [hf, ← List.countP_map, List.enum_map_snd]

theorem countP_flatMap_bucketEntries (category : String)
    (sel : UserTodos → Option (List Obj)) (data : TodoSnapshot) :
    (data.flatMap (fun e => bucketEntries e.1 category (sel e.2))).countP undone =
      (data.map (fun e => ((sel e.2).getD []).countP undone)).sum := by
  rw [List.countP_flatMap]
  congr 1
  apply List.map_congr_left
  intro e _
  simp [countP_bucketEntries]

theorem workCount_loadTodos (data : TodoSnapshot) :
    workCount (loadTodos data) =
      (data.map (fun e => ((e.2.work).getD []).countP undone)).sum := by
  unfold workCount
  rw [loadTodos_eq, ← List.countP_eq_length_filter]
  exact countP_flatMap_bucketEntries "work" UserTodos.work data

theorem playCount_loadTodos (data : TodoSnapshot) :
    playCount (loadTodos data) =
      (data.map (fun e => ((e.2.play).getD []).countP undone)).sum := by
  unfold playCount
  rw [loadTodos_eq, ← List.countP_eq_length_filter]
  exact countP_flatMap_bucketEntries "play" UserTodos.play data

theorem todoCount_step (bucket : Option (List Obj)) (c : Nat) :
    (match bucket with
      | some items => c + (items.filter undone).length
      | none => c) = c + (bucket.getD []).countP undone := by
  cases bucket <;> simp [List.countP_eq_length_filter]

theorem todoCount_foldl (data : TodoSnapshot) (init : Nat) :
    data.foldl
      (fun todoCount entry =>
        let userTodos := entry.2
        let c1 :=
          match userTodos.work with
          | some work => todoCount + (work.filter undone).length
          | none => todoCount
        match userTodos.play with
        | some play => c1 + (play.filter undone).length
        | none => c1)
      init =
    init + (data.map (fun e => ((e.2.work).getD []).countP undone)).sum
      + (data.map (fun e => ((e.2.play).getD []).countP undone)).sum := by
  induction data generalizing init with
  | nil => simp
  | cons e rest ih =>
    rw [List.foldl_cons, ih]
    simp only [todoCount_step, List.map_cons, List.sum_cons]
    omega

theorem forEachFrom_count (n : Nat) (xs : List Obj) (c : Nat) :
    forEachFrom (fun c todo (_ : Nat) => if undone todo then c + 1 else c) n xs c =
      c + xs.countP undone := by
  induction xs generalizing n c with
  | nil => simp [forEachFrom]
  | cons x rest ih =>
    rw [forEachFrom, ih, List.countP_cons]
    by_cases h : undone x = true
    · simp [h]; omega
    · simp [h]

theorem staticCount_step (bucket : Option (List Obj)) (c : Nat) :
    (match bucket with
      | some items =>
        forEachIdx (fun c todo (_ : Nat) => if undone todo then c + 1 else c) items c
      | none => c) = c + (bucket.getD []).countP undone := by
  cases bucket with
  | none => simp
  | some items => simp [forEachIdx, forEachFrom_count]

theorem loadTodosCounts_foldl (data : TodoSnapshot) (init : Nat × Nat) :
    data.foldl
      (fun st entry =>
        let userTodos := entry.2
        let workCount :=
          match userTodos.work with
          | some work =>
            forEachIdx (fun c todo (_ : Nat) => if undone todo then c + 1 else c) work st.1
          | none => st.1
        let playCount :=
          match userTodos.play with
          | some play =>
            forEachIdx (fun c todo (_ : Nat) => if undone todo then c + 1 else c) play st.2
          | none => st.2
        (workCount, playCount))
      init =
    (init.1 + (data.map (fun e => ((e.2.work).getD []).countP undone)).sum,
     init.2 + (data.map (fun e => ((e.2.play).getD []).countP undone)).sum) := by
  induction data generalizing init with
  | nil => simp
  | cons e rest ih =>
    rw [List.foldl_cons, ih]
    simp only [staticCount_step, List.map_cons, List.sum_cons, Nat.add_assoc]

/-- C10: `workCount` and `playCount` of the Todos view are the numbers of
flattened entries of the category whose done flag is not set (`!t.done`), which
are the numbers of such items in the owners' work and play arrays; the
dashboard's `todoCount` for the same snapshot is `workCount + playCount`, the
counters of the static `loadTodos` are the same pair, and an entry whose done
flag is `true` is not counted. -/
theorem C10_undone_counts (data : TodoSnapshot) :
    workCount (loadTodos data) =
      (loadTodos data).work.countP (fun e => !Js.truthy (e.get "done")) ∧
    playCount (loadTodos data) =
      (loadTodos data).play.countP (fun e => !Js.truthy (e.get "done")) ∧
    workCount (loadTodos data) =
      (data.map (fun e =>
        (e.2.work.getD []).countP (fun t => !Js.truthy (t.get "done")))).sum ∧
    playCount (loadTodos data) =
      (data.map (fun e =>
        (e.2.play.getD []).countP (fun t => !Js.truthy (t.get "done")))).sum ∧
    Dashboard.todoCount data = workCount (loadTodos data) + playCount (loadTodos data) ∧
    Static.loadTodosCounts data = (workCount (loadTodos data), playCount (loadTodos data)) ∧
    (∀ (t : Obj) (b : Bool), t.get "done" = some (Val.bool b) → undone t = !b) := by
  refine ⟨?_, ?_, workCount_loadTodos data, playCount_loadTodos data, ?_, ?_, ?_⟩
  · unfold workCount
    rw [← List.countP_eq_length_filter]
    rfl
  · unfold playCount
    rw [← List.countP_eq_length_filter]
    rfl
  · rw [workCount_loadTodos, playCount_loadTodos]
    unfold Dashboard.todoCount
    rw [todoCount_foldl]
    omega
  · rw [workCount_loadTodos, playCount_loadTodos]
    unfold Static.loadTodosCounts
    rw [loadTodosCounts_foldl]
    simp
  · intro t b h
    simp [undone, h, Js.truthy]

/-- Instance of C10 on `sampleTodos`: three undone items, the done one not counted. -/
theorem C10_undone_counts_witness :
    (⟨[("task", Val.str "send mail"), ("done", Val.bool true)], by decide⟩ : Obj).get "done" =
      some (Val.bool true) ∧
    undone ⟨[("task", Val.str "send mail"), ("done", Val.bool true)], by decide⟩ = !true ∧
    Dashboard.todoCount sampleTodos = 3 :=
  ⟨by decide,
   (C10_undone_counts sampleTodos).2.2.2.2.2.2 _ true (by decide),
   (C10_undone_counts sampleTodos).2.2.2.2.1.trans (by decide)⟩

/-! ## Claims on toggling and on the dashboard counts -/

theorem undone_flip (t : Obj) :
    undone (t.set "done" (Val.bool (!Js.truthy (t.get "done")))) = !undone t := by
  unfold undone
  rw [Obj.get_set_self]
  simp [Js.truthy]

theorem countP_flipDoneAt (items : List Obj) (i : Nat) (t : Obj) (h : items[i]? = some t) :
    (flipDoneAt items i).countP undone + (if undone t then 1 else 0) =
      items.countP undone + (if undone t then 0 else 1) := by
  induction items generalizing i with
  | nil => simp at h
  | cons x rest ih =>
    cases i with
    | zero =>
      simp only [List.getElem?_cons_zero, Option.some.injEq] at h
      subst h
      simp only [flipDoneAt, List.countP_cons, undone_flip]
      cases undone x <;> simp
    | succ j =>
      simp only [List.getElem?_cons_succ] at h
      have := ih j h
      simp only [flipDoneAt, List.countP_cons]
      omega

theorem flipDone_of_not_mem (data : TodoSnapshot) (u c : String) (i : Nat)
    (h : u ∉ data.map Prod.fst) : flipDone data u c i = data := by
  unfold flipDone
  induction data with
  | nil => rfl
  | cons e rest ih =>
    have he : ¬ e.1 = u := fun x => h (by simp [x])
    have hr : u ∉ rest.map Prod.fst := fun m => h (by simp only [List.map_cons, List.mem_cons]; exact Or.inr m)
    simp [he, ih hr]

theorem mem_of_lookup {β : Type} (data : List (String × β)) {u : String} {b : β}
    (h : data.lookup u = some b) : (u, b) ∈ data := by
  induction data with
  | nil => simp [List.lookup] at h
  | cons x rest ih =>
    obtain ⟨k, v⟩ := x
    rw [List.lookup_cons] at h
    by_cases hk : u = k
    · subst hk
      simp at h
      simp [h]
    · have hb : (u == k) = false := by simpa using hk
      rw [hb] at h
      exact List.mem_cons_of_mem _ (ih h)

/-- The undone items of one bucket, selected by `sel`, summed over the owners. -/
theorem sum_flipDone (sel : UserTodos → Option (List Obj)) (data : TodoSnapshot)
    (hk : (data.map Prod.fst).Nodup) (u c : String) (i : Nat) (ut : UserTodos)
    (hm : (u, ut) ∈ data) :
    ((flipDone data u c i).map (fun e => ((sel e.2).getD []).countP undone)).sum
        + ((sel ut).getD []).countP undone =
      (data.map (fun e => ((sel e.2).getD []).countP undone)).sum
        + ((sel (flipDoneIn ut c i)).getD []).countP undone := by
  induction data with
  | nil => simp at hm
  | cons e rest ih =>
    rw [List.map_cons, List.nodup_cons] at hk
    rw [List.mem_cons] at hm
    rcases hm with hm | hm
    · subst hm
      have hr : flipDone rest u c i = rest := flipDone_of_not_mem rest u c i hk.1
      have : flipDone ((u, ut) :: rest) u c i = (u, flipDoneIn ut c i) :: rest := by
        have := hr
        unfold flipDone at this ⊢
        simp [this]
      rw [this]
      simp only [List.map_cons, List.sum_cons]
      omega
    · have hne : ¬ e.1 = u := by
        intro x
        exact hk.1 (x ▸ List.mem_map.mpr ⟨(u, ut), hm, rfl⟩)
      have : flipDone (e :: rest) u c i = e :: flipDone rest u c i := by
        unfold flipDone
        simp [hne]
      rw [this]
      have := ih hk.2 hm
      simp only [List.map_cons, List.sum_cons]
      omega

/-- C11: negating the done flag of the single entry addressed by
(userId, category, index) and recomputing the counts from the changed snapshot
changes the undone count of the entry's category by exactly 1 (one less when
the entry was undone and becomes done, one more when it becomes undone) and
leaves the other category's count unchanged. -/
theorem C11_toggle_changes_count_by_one (data : TodoSnapshot)
    (hk : (data.map Prod.fst).Nodup) (u c : String) (i : Nat) (t : Obj)
    (ht : snapshotItem data u c i = some t) :
    (c = "work" →
      (undone t = true →
        workCount (loadTodos (flipDone data u c i)) + 1 = workCount (loadTodos data)) ∧
      (undone t = false →
        workCount (loadTodos (flipDone data u c i)) = workCount (loadTodos data) + 1) ∧
      playCount (loadTodos (flipDone data u c i)) = playCount (loadTodos data)) ∧
    (c = "play" →
      (undone t = true →
        playCount (loadTodos (flipDone data u c i)) + 1 = playCount (loadTodos data)) ∧
      (undone t = false →
        playCount (loadTodos (flipDone data u c i)) = playCount (loadTodos data) + 1) ∧
      workCount (loadTodos (flipDone data u c i)) = workCount (loadTodos data)) := by
  unfold snapshotItem at ht
  cases hl : data.lookup u with
  | none => simp [hl] at ht
  | some ut =>
    have hm : (u, ut) ∈ data := mem_of_lookup data hl
    have hw := sum_flipDone UserTodos.work data hk u c i ut hm
    have hp := sum_flipDone UserTodos.play data hk u c i ut hm
    simp only [workCount_loadTodos, playCount_loadTodos]
    simp only [hl] at ht
    refine ⟨fun hc => ?_, fun hc => ?_⟩
    · subst hc
      simp only [if_true] at ht
      cases hb : ut.work with
      | none => simp [hb] at ht
      | some items =>
        simp only [hb] at ht
        have hc := countP_flipDoneAt items i t ht
        simp only [flipDoneIn, if_true, hb, Option.map_some', Option.getD_some] at hw hp
        refine ⟨fun h1 => ?_, fun h2 => ?_, ?_⟩
        · simp only [h1, if_true] at hc; omega
        · simp only [h2] at hc; simp at hc; omega
        · omega
    · subst hc
      simp only [show ¬ ("play" = "work") by decide, if_false, if_true] at ht
      cases hb : ut.play with
      | none => simp [hb] at ht
      | some items =>
        simp only [hb] at ht
        have hc := countP_flipDoneAt items i t ht
        simp only [flipDoneIn, show ¬ ("play" = "work") by decide, if_false, if_true, hb,
          Option.map_some', Option.getD_some] at hw hp
        refine ⟨fun h1 => ?_, fun h2 => ?_, ?_⟩
        · simp only [h1, if_true] at hc; omega
        · simp only [h2] at hc; simp at hc; omega
        · omega

/-- Instance of C11 on `sampleTodos`: the first work item of owner 10001 is
undone, and flipping it lowers the work count by one. -/
theorem C11_toggle_changes_count_by_one_witness :
    (sampleTodos.map Prod.fst).Nodup ∧
    snapshotItem sampleTodos "10001" "work" 0 =
      some ⟨[("task", Val.str "write report"), ("done", Val.bool false)], by decide⟩ ∧
    workCount (loadTodos (flipDone sampleTodos "10001" "work" 0)) + 1 =
      workCount (loadTodos sampleTodos) :=
  ⟨by decide, by decide,
   ((C11_toggle_changes_count_by_one sampleTodos (by decide) "10001" "work" 0
      ⟨[("task", Val.str "write report"), ("done", Val.bool false)], by decide⟩
      (by decide)).1 rfl).1 (by decide)⟩

theorem reminderCount_foldl (rs : ReminderSnapshot) (init : Nat) :
    rs.foldl (fun sum entry => sum + entry.2.length) init =
      init + (rs.map (fun e => e.2.length)).sum := by
  induction rs generalizing init with
  | nil => simp
  | cons e rest ih =>
    rw [List.foldl_cons, ih]
    simp only [List.map_cons, List.sum_cons]
    omega

theorem countdownCount_foldl (cs : CountdownSnapshot) (init : Nat) :
    cs.foldl (fun sum entry => sum + (entry.2.map Prod.fst).length) init =
      init + (cs.map (fun e => e.2.length)).sum := by
  induction cs generalizing init with
  | nil => simp
  | cons e rest ih =>
    rw [List.foldl_cons, ih]
    simp only [List.map_cons, List.sum_cons, List.length_map]
    omega

/-- C12: the dashboard's reminder count is the length of the flat list
`loadReminders` builds from the same snapshot and its countdown count the
length of the list `loadCountdowns` builds; both are the plain sums of the
owners' collection sizes, whatever the entries contain, so no entry (an
already-expired countdown included) is filtered out, and no current time
enters either count. -/
theorem C12_dashboard_counts (rs : ReminderSnapshot) (cs : CountdownSnapshot) :
    Dashboard.reminderCount rs = (loadReminders rs).length ∧
    Dashboard.countdownCount cs = (loadCountdowns cs).length ∧
    Dashboard.reminderCount rs = (rs.map (fun e => e.2.length)).sum ∧
    Dashboard.countdownCount cs = (cs.map (fun e => e.2.length)).sum := by
  have h1 : Dashboard.reminderCount rs = (rs.map (fun e => e.2.length)).sum := by
    unfold Dashboard.reminderCount
    rw [reminderCount_foldl]
    omega
  have h2 : Dashboard.countdownCount cs = (cs.map (fun e => e.2.length)).sum := by
    unfold Dashboard.countdownCount
    rw [countdownCount_foldl]
    omega
  exact ⟨by rw [h1, length_loadReminders], by rw [h2, length_loadCountdowns], h1, h2⟩

/-! ## Claims on the usage series -/

theorem orElse_num (n : Int) : Js.orElse (some (Val.num n)) (Val.num 0) = Val.num n := by
  by_cases h : n = 0
  · simp [Js.orElse, Js.truthy, h]
  · simp [Js.orElse, Js.truthy, h]

/-- C13: the hourly series has exactly 24 values, the value at position i being
the response's count for hour i, or 0 when that hour is absent; the weekday
series has exactly 7 values, in the order Monday, ..., Sunday, each the
response's count for that name, or 0 when absent.  Both frontends build the
same series. -/
theorem C13_hourly_weekday_series (hourly weekday : Obj) :
    (hourlyValues hourly).length = 24 ∧
    (∀ i : Nat, i < 24 →
      (∀ n : Int, hourly.get (toString i) = some (Val.num n) →
        (hourlyValues hourly)[i]? = some (Val.num n)) ∧
      (hourly.get (toString i) = none →
        (hourlyValues hourly)[i]? = some (Val.num 0))) ∧
    (weekdayValues weekday).length = 7 ∧
    weekdayKeys =
      ["Monday", "Tuesday", "Wednesday", "Thursday", "Friday", "Saturday", "Sunday"] ∧
    (∀ (j : Nat) (key : String), weekdayKeys[j]? = some key →
      (∀ n : Int, weekday.get key = some (Val.num n) →
        (weekdayValues weekday)[j]? = some (Val.num n)) ∧
      (weekday.get key = none → (weekdayValues weekday)[j]? = some (Val.num 0))) ∧
    Static.hourlyValues hourly = hourlyValues hourly ∧
    Static.weekdayValues weekday = weekdayValues weekday := by
  refine ⟨by simp [hourlyValues], ?_, by simp [weekdayValues, weekdayKeys], rfl, ?_, rfl, rfl⟩
  · intro i hi
    have hg : (hourlyValues hourly)[i]? =
        some (Js.orElse (hourly.get (toString i)) (Val.num 0)) := by
      unfold hourlyValues
      rw [List.getElem?_map, List.getElem?_range hi]
      rfl
    refine ⟨fun n hn => ?_, fun hn => ?_⟩
    · rw [hg, hn, orElse_num]
    · rw [hg, hn]
      rfl
  · intro j key hj
    have hg : (weekdayValues weekday)[j]? =
        some (Js.orElse (weekday.get key) (Val.num 0)) := by
      unfold weekdayValues
      rw [List.getElem?_map, hj]
      rfl
    refine ⟨fun n hn => ?_, fun hn => ?_⟩
    · rw [hg, hn, orElse_num]
    · rw [hg, hn]
      rfl

/-- Instance of C13 on `sparseHourly`: hour 9 shows its count, hour 10, absent
from the response, shows 0. -/
theorem C13_hourly_weekday_series_witness :
    sparseHourly.get (toString 9) = some (Val.num 12) ∧
    (hourlyValues sparseHourly)[9]? = some (Val.num 12) ∧
    sparseHourly.get (toString 10) = none ∧
    (hourlyValues sparseHourly)[10]? = some (Val.num 0) :=
  ⟨by decide,
   ((C13_hourly_weekday_series sparseHourly sparseHourly).2.1 9 (by decide)).1 12
      (by decide),
   by decide,
   ((C13_hourly_weekday_series sparseHourly sparseHourly).2.1 10 (by decide)).2
      (by decide)⟩

/-- C14 (refuted as stated): for a response with counts for 1 and 3 January
only, the daily series has two values and its labels do not contain 2 January:
the absent date is omitted, not shown as 0.  Both frontends agree. -/
theorem C14_counterexample :
    dailyDates gapDaily = ["2024-01-03", "2024-01-01"] ∧
    dailyValues gapDaily = [some (Val.num 7), some (Val.num 5)] ∧
    "2024-01-02" ∉ dailyDates gapDaily ∧
    (dailyValues gapDaily).length = 2 ∧
    Static.dailyDates gapDaily = ["2024-01-03", "2024-01-01"] ∧
    Static.dailyValues gapDaily = [some (Val.num 7), some (Val.num 5)] := by
  decide

theorem getProps_of_mem_nodup (l : List (String × Val)) (h : (l.map Prod.fst).Nodup)
    (p : String × Val) (hp : p ∈ l) : Js.getProps p.1 l = some p.2 := by
  induction l with
  | nil => simp at hp
  | cons x rest ih =>
    rw [List.map_cons, List.nodup_cons] at h
    rw [List.mem_cons] at hp
    rcases hp with hp | hp
    · subst hp
      simp [Js.getProps]
    · have hne : ¬ x.1 = p.1 := by
        intro e
        exact h.1 (e ▸ List.mem_map.mpr ⟨p, hp, rfl⟩)
      simp [Js.getProps, hne, ih h.2 hp]

theorem getProps_eq_none_iff (k : String) (l : List (String × Val)) :
    Js.getProps k l = none ↔ k ∉ l.map Prod.fst := by
  induction l with
  | nil => simp [Js.getProps]
  | cons x rest ih =>
    by_cases h : x.1 = k
    · simp [Js.getProps, h]
    · have h' : ¬ k = x.1 := fun e => h e.symm
      simp [Js.getProps, h, h', ih]

/-- C14 (amended): the daily series has exactly one label and one value per
date key of the response, in the reverse of the response's key order, the
value being the response's value for that date; a date is in the series if and
only if the response has it, so an absent calendar date is not added. -/
theorem C14_daily_series (daily : Obj) :
    dailyDates daily = (daily.props.map Prod.fst).reverse ∧
    dailyValues daily = (daily.props.map (fun p => some p.2)).reverse ∧
    (dailyValues daily).length = daily.props.length ∧
    (∀ date : String, date ∈ dailyDates daily ↔ daily.get date ≠ none) ∧
    Static.dailyDates daily = dailyDates daily ∧
    Static.dailyValues daily = dailyValues daily := by
  refine ⟨rfl, ?_, by simp [dailyValues, dailyDates], ?_, rfl, rfl⟩
  · unfold dailyValues dailyDates
    rw [← List.map_reverse, ← List.map_reverse, List.map_map]
    apply List.map_congr_left
    intro p hp
    exact getProps_of_mem_nodup daily.props daily.nodup p (List.mem_reverse.mp hp)
  · intro date
    unfold dailyDates Obj.get
    rw [List.mem_reverse, Ne, getProps_eq_none_iff]
    exact not_not.symm

/-! ## Claims on the dashboard's stat set -/

/-- C15: in `updateStats` of the React dashboard, whenever at least one of the
four fetches fails the stat set after the call is the prior stat set and the
error notice is emitted; when all four succeed the stat set is replaced, all
four fields at once, and no notice is emitted. -/
theorem C15_updateStats_all_or_nothing (prior : Stats)
    (r : Except String ReminderSnapshot) (t : Except String TodoSnapshot)
    (c : Except String CountdownSnapshot) (u : Except String Obj) :
    (((∃ m, r = Except.error m) ∨ (∃ m, t = Except.error m) ∨
        (∃ m, c = Except.error m) ∨ (∃ m, u = Except.error m)) →
      (Dashboard.updateStats prior r t c u).1 = prior ∧
      Effect.toast "加载统计数据失败" "error" ∈ (Dashboard.updateStats prior r t c u).2) ∧
    (∀ rs ts cs us, r = Except.ok rs → t = Except.ok ts → c = Except.ok cs →
        u = Except.ok us →
      Dashboard.updateStats prior r t c u =
        ({ reminders := Val.num (Dashboard.reminderCount rs)
           todos := Val.num (Dashboard.todoCount ts)
           countdowns := Val.num (Dashboard.countdownCount cs)
           messages := Js.orElse (us.get "recent_7days") (Val.num 0) }, [])) := by
  refine ⟨fun h => ?_, fun rs ts cs us hr ht hc hu => ?_⟩
  · cases r <;> cases t <;> cases c <;> cases u <;>
      simp [Dashboard.updateStats, bind, Except.bind, pure, Except.pure] at h ⊢
  · subst hr ht hc hu
    simp [Dashboard.updateStats, bind, Except.bind, pure, Except.pure]

/-- Instance of C15: the todos fetch fails, the other three succeed. -/
theorem C15_updateStats_all_or_nothing_witness :
    (Dashboard.updateStats blankStats (Except.ok twinReminders)
        (Except.error "HTTP 500: Internal Server Error") (Except.ok [])
        (Except.ok Obj.empty)).1 = blankStats ∧
    Effect.toast "加载统计数据失败" "error" ∈
      (Dashboard.updateStats blankStats (Except.ok twinReminders)
        (Except.error "HTTP 500: Internal Server Error") (Except.ok [])
        (Except.ok Obj.empty)).2 :=
  (C15_updateStats_all_or_nothing blankStats (Except.ok twinReminders)
    (Except.error "HTTP 500: Internal Server Error") (Except.ok [])
    (Except.ok Obj.empty)).1 (Or.inr (Or.inl ⟨_, rfl⟩))

/-- C16 (code defect): in `updateDashboardStats` of the static frontend the
reminders request succeeds and the todos request fails: the reminders stat has
already been overwritten (from "-" to "2") when the failure is caught, so one
of the four displayed values has changed.  The React `updateStats` leaves the
stat set untouched for the same outcomes. -/
theorem C16_static_stats_overwritten_before_failure :
    Static.updateDashboardStats blankTexts (Except.ok twinReminders)
        (Except.error "HTTP 500: Internal Server Error") (Except.ok [])
        (Except.ok Obj.empty) =
      ({ reminders := "2", todos := "-", countdowns := "-", messages := "-" },
        [Effect.consoleError "API Error:",
          Effect.toast "请求失败: HTTP 500: Internal Server Error" "error",
          Effect.consoleError "Failed to load dashboard stats:"]) ∧
    (Static.updateDashboardStats blankTexts (Except.ok twinReminders)
        (Except.error "HTTP 500: Internal Server Error") (Except.ok [])
        (Except.ok Obj.empty)).1 ≠ blankTexts ∧
    (Dashboard.updateStats blankStats (Except.ok twinReminders)
        (Except.error "HTTP 500: Internal Server Error") (Except.ok [])
        (Except.ok Obj.empty)).1 = blankStats := by
  decide

/-- In the static dashboard every failure is announced, and a failure of the
first request leaves the four stat texts untouched. -/
theorem Static.updateDashboardStats_failure (shown : StatTexts)
    (r : Except String ReminderSnapshot) (t : Except String TodoSnapshot)
    (c : Except String CountdownSnapshot) (u : Except String Obj)
    (h : (∃ m, r = Except.error m) ∨ (∃ m, t = Except.error m) ∨
        (∃ m, c = Except.error m) ∨ (∃ m, u = Except.error m)) :
    (Static.updateDashboardStats shown r t c u).2.any Effect.isErrorToast = true ∧
    ((∃ m, r = Except.error m) → (Static.updateDashboardStats shown r t c u).1 = shown) := by
  cases r <;> cases t <;> cases c <;> cases u <;>
    simp [Static.updateDashboardStats, Static.apiFailure, Effect.isErrorToast] at h ⊢

/-! ## Claims on the mutating handlers -/

/-- C17: for each mutating handler of the React views (delete and create for
reminders, todos, countdowns and foods, delete for images, toggle for todos),
when the gateway call it issued fails, the handler starts no refetch, leaves
the state of the view (the displayed collection included) as it was and emits
an error notice. -/
theorem C17_failed_mutation_keeps_view (message : String) :
    (∀ (v : RemindersView) (u j : Option Val),
      FailedRun v (Reminders.handleDelete v u j true (Except.error message))) ∧
    (∀ v : RemindersView, v.formData.userId ≠ "" → v.formData.event ≠ "" →
      v.formData.hour ≠ "" → v.formData.minute ≠ "" → v.formData.sessionId ≠ "" →
      FailedRun v (Reminders.handleSubmit v (Except.error message))) ∧
    (∀ (v : TodosView) (u c i : Option Val) (d : Bool),
      FailedRun v (Todos.handleToggle v u c i d (Except.error message))) ∧
    (∀ (v : TodosView) (u c i : Option Val),
      FailedRun v (Todos.handleDelete v u c i true (Except.error message))) ∧
    (∀ v : TodosView, v.formData.userId ≠ "" → v.formData.task ≠ "" →
      FailedRun v (Todos.handleSubmit v (Except.error message))) ∧
    (∀ (v : CountdownsView) (u n : Option Val),
      FailedRun v (Countdowns.handleDelete v u n true (Except.error message))) ∧
    (∀ (toISOString : String → Option String) (v : CountdownsView) (iso : String),
      v.formData.userId ≠ "" → v.formData.eventName ≠ "" → v.formData.time ≠ "" →
      toISOString v.formData.time = some iso →
      FailedRun v (Countdowns.handleSubmit toISOString v (Except.error message))) ∧
    (∀ (v : EatView) (l : ListName), Js.trim (Eat.input v.inputs l) ≠ "" →
      FailedRun v (Eat.handleAddFood v l (Except.error message))) ∧
    (∀ (v : EatView) (l : ListName) (food : String),
      FailedRun v (Eat.handleDeleteFood v l food true (Except.error message))) ∧
    (∀ (v : ImagesView) (img : Obj), v.previewImage = some img →
      FailedRun v (Images.handleDeleteImage v true (Except.error message))) := by
  refine ⟨?_, ?_, ?_, ?_, ?_, ?_, ?_, ?_, ?_, ?_⟩
  · intro v u j
    simp [FailedRun, Reminders.handleDelete, Effect.isGateway, Effect.isReload,
      Effect.isErrorToast]
  · intro v h1 h2 h3 h4 h5
    simp [FailedRun, Reminders.handleSubmit, h1, h2, h3, h4, h5, Effect.isGateway,
      Effect.isReload, Effect.isErrorToast]
  · intro v u c i d
    simp [FailedRun, Todos.handleToggle, Effect.isGateway, Effect.isReload,
      Effect.isErrorToast]
  · intro v u c i
    simp [FailedRun, Todos.handleDelete, Effect.isGateway, Effect.isReload,
      Effect.isErrorToast]
  · intro v h1 h2
    simp [FailedRun, Todos.handleSubmit, h1, h2, Effect.isGateway, Effect.isReload,
      Effect.isErrorToast]
  · intro v u n
    simp [FailedRun, Countdowns.handleDelete, Effect.isGateway, Effect.isReload,
      Effect.isErrorToast]
  · intro toISOString v iso h1 h2 h3 h4
    simp [FailedRun, Countdowns.handleSubmit, h1, h2, h3, h4, Effect.isGateway,
      Effect.isReload, Effect.isErrorToast]
  · intro v l h
    by_cases hc : "400".data <:+: message.data
    · simp [FailedRun, Eat.handleAddFood, h, hc, Effect.isGateway, Effect.isReload,
        Effect.isErrorToast]
    · simp [FailedRun, Eat.handleAddFood, h, hc, Effect.isGateway, Effect.isReload,
        Effect.isErrorToast]
  · intro v l food
    simp [FailedRun, Eat.handleDeleteFood, Effect.isGateway, Effect.isReload,
      Effect.isErrorToast]
  · intro v img h
    simp [FailedRun, Images.handleDeleteImage, h, Effect.isGateway, Effect.isReload,
      Effect.isErrorToast]

/-- Instance of C17: adding the typed food fails with a server error. -/
theorem C17_failed_mutation_keeps_view_witness :
    Js.trim (Eat.input sampleEat.inputs ListName.android) ≠ "" ∧
    FailedRun sampleEat
      (Eat.handleAddFood sampleEat ListName.android
        (Except.error "HTTP 500: Internal Server Error")) :=
  ⟨by decide,
   (C17_failed_mutation_keeps_view "HTTP 500: Internal Server Error").2.2.2.2.2.2.2.1
      sampleEat ListName.android (by decide)⟩

/-- C18: in every delete handler (reminder, todo, countdown, food, image), when
the confirmation gate answers no the handler issues no gateway call, emits no
notice, starts no refetch and leaves the view state unchanged; whatever the
answer and the outcome, a gateway call is issued only after the gate was asked
and answered yes. -/
theorem C18_delete_needs_confirmation (result : Except String Unit) :
    (∀ (v : RemindersView) (u j : Option Val),
      DeclinedRun v (Reminders.handleDelete v u j false result) ∧
      ∀ confirmed, GatedRun confirmed (Reminders.handleDelete v u j confirmed result)) ∧
    (∀ (v : TodosView) (u c i : Option Val),
      DeclinedRun v (Todos.handleDelete v u c i false result) ∧
      ∀ confirmed, GatedRun confirmed (Todos.handleDelete v u c i confirmed result)) ∧
    (∀ (v : CountdownsView) (u n : Option Val),
      DeclinedRun v (Countdowns.handleDelete v u n false result) ∧
      ∀ confirmed, GatedRun confirmed (Countdowns.handleDelete v u n confirmed result)) ∧
    (∀ (v : EatView) (l : ListName) (food : String),
      DeclinedRun v (Eat.handleDeleteFood v l food false result) ∧
      ∀ confirmed, GatedRun confirmed (Eat.handleDeleteFood v l food confirmed result)) ∧
    (∀ v : ImagesView,
      DeclinedRun v (Images.handleDeleteImage v false result) ∧
      ∀ confirmed, GatedRun confirmed (Images.handleDeleteImage v confirmed result)) := by
  refine ⟨?_, ?_, ?_, ?_, ?_⟩
  · intro v u j
    refine ⟨by simp [DeclinedRun, Reminders.handleDelete, Effect.isGateway, Effect.isToast,
      Effect.isReload], fun confirmed => ?_⟩
    cases confirmed <;> cases result <;>
      simp [GatedRun, Reminders.handleDelete, Effect.isGateway]
  · intro v u c i
    refine ⟨by simp [DeclinedRun, Todos.handleDelete, Effect.isGateway, Effect.isToast,
      Effect.isReload], fun confirmed => ?_⟩
    cases confirmed <;> cases result <;>
      simp [GatedRun, Todos.handleDelete, Effect.isGateway]
  · intro v u n
    refine ⟨by simp [DeclinedRun, Countdowns.handleDelete, Effect.isGateway, Effect.isToast,
      Effect.isReload], fun confirmed => ?_⟩
    cases confirmed <;> cases result <;>
      simp [GatedRun, Countdowns.handleDelete, Effect.isGateway]
  · intro v l food
    refine ⟨by simp [DeclinedRun, Eat.handleDeleteFood, Effect.isGateway, Effect.isToast,
      Effect.isReload], fun confirmed => ?_⟩
    cases confirmed <;> cases result <;>
      simp [GatedRun, Eat.handleDeleteFood, Effect.isGateway]
  · intro v
    cases hp : v.previewImage with
    | none =>
      refine ⟨by simp [DeclinedRun, Images.handleDeleteImage, hp], fun confirmed => ?_⟩
      simp [GatedRun, Images.handleDeleteImage, hp]
    | some img =>
      refine ⟨by simp [DeclinedRun, Images.handleDeleteImage, hp, Effect.isGateway,
        Effect.isToast, Effect.isReload], fun confirmed => ?_⟩
      cases confirmed <;> cases result <;>
        simp [GatedRun, Images.handleDeleteImage, hp, Effect.isGateway]

/-- Instance of C18: a confirmed food deletion issues its call after the
question. -/
theorem C18_delete_needs_confirmation_witness :
    (Eat.handleDeleteFood sampleEat ListName.android "noodles" true
        (Except.ok ())).2.any Effect.isGateway = true ∧
    (true = true ∧ ∃ question rest,
      (Eat.handleDeleteFood sampleEat ListName.android "noodles" true (Except.ok ())).2 =
        Effect.confirm question :: rest) :=
  ⟨by decide,
   ((C18_delete_needs_confirmation (Except.ok ())).2.2.2.1 sampleEat ListName.android
      "noodles").2 true (by decide)⟩

/-- C19: a create submission with an empty required field (reminder: user id,
event, hour, minute, session id; todo: user id, task; countdown: user id, event
name, time; food: the name after trimming white space) issues no gateway call:
the handler's only effect is the validation notice, and the view state, form
and displayed collection included, is unchanged. -/
theorem C19_empty_field_blocks_create (result : Except String Unit) :
    (∀ v : RemindersView,
      (v.formData.userId = "" ∨ v.formData.event = "" ∨ v.formData.hour = "" ∨
        v.formData.minute = "" ∨ v.formData.sessionId = "") →
      Reminders.handleSubmit v result = (v, [Effect.toast "请填写所有必填字段" "error"])) ∧
    (∀ v : TodosView, (v.formData.userId = "" ∨ v.formData.task = "") →
      Todos.handleSubmit v result = (v, [Effect.toast "请填写所有必填字段" "error"])) ∧
    (∀ (toISOString : String → Option String) (v : CountdownsView),
      (v.formData.userId = "" ∨ v.formData.eventName = "" ∨ v.formData.time = "") →
      Countdowns.handleSubmit toISOString v result =
        (v, [Effect.toast "请填写所有必填字段" "error"])) ∧
    (∀ (v : EatView) (l : ListName), Js.trim (Eat.input v.inputs l) = "" →
      Eat.handleAddFood v l result = (v, [Effect.toast "请输入食物名称" "error"])) ∧
    [Effect.toast "请填写所有必填字段" "error"].any Effect.isGateway = false ∧
    [Effect.toast "请输入食物名称" "error"].any Effect.isGateway = false := by
  refine ⟨?_, ?_, ?_, ?_, by decide, by decide⟩
  · intro v h
    unfold Reminders.handleSubmit
    simp only [if_pos h]
  · intro v h
    unfold Todos.handleSubmit
    simp only [if_pos h]
  · intro toISOString v h
    unfold Countdowns.handleSubmit
    simp only [if_pos h]
  · intro v l h
    unfold Eat.handleAddFood
    simp only [if_pos h]

/-- Instance of C19: a food name of white space only. -/
theorem C19_empty_field_blocks_create_witness :
    Js.trim (Eat.input { android := " \t ", apple := "" } ListName.android) = "" ∧
    Eat.handleAddFood
        { eatData := { android := [], apple := [] },
          inputs := { android := " \t ", apple := "" } }
        ListName.android (Except.ok ()) =
      ({ eatData := { android := [], apple := [] },
         inputs := { android := " \t ", apple := "" } },
        [Effect.toast "请输入食物名称" "error"]) :=
  ⟨by decide,
   (C19_empty_field_blocks_create (Except.ok ())).2.2.2.1
      { eatData := { android := [], apple := [] },
        inputs := { android := " \t ", apple := "" } }
      ListName.android (by decide)⟩

/-- C20 (code defect): the static `submitReminder`, given hour 25 and minute
75, shows no validation notice: it issues the create call, whose body carries
hour 25 and minute 75, and reports success.  The same handler does block an
hour that is not a number. -/
theorem C20_static_submit_out_of_range :
    Static.submitReminder lateFormDom (Except.ok ()) =
      ({ userId := "", event := "", hour := "", minute := "", sessionId := "",
         isGroup := false, isDaily := false, modalActive := false },
        [Effect.gateway
            (Call.createReminder "10001"
              (reminderBody "standup" (some 25) (some 75) "s1" false false)),
          Effect.toast "提醒创建成功！重启机器人后生效" "success",
          Effect.reload "loadReminders"]) ∧
    (reminderBody "standup" (some 25) (some 75) "s1" false false).get "hour" =
      some (Val.num 25) ∧
    (reminderBody "standup" (some 25) (some 75) "s1" false false).get "minute" =
      some (Val.num 75) ∧
    (Static.submitReminder lateFormDom (Except.ok ())).2.any Effect.isErrorToast = false ∧
    Static.submitReminder { lateFormDom with hour := "abc" } (Except.ok ()) =
      ({ lateFormDom with hour := "abc" }, [Effect.toast "请填写所有必填字段" "error"]) := by
  decide

/-- What the two submit handlers test: the React `handleSubmit` blocks, with
the validation notice as its only effect, exactly when one of user id, event,
hour, minute, session id is empty; the static `submitReminder` blocks exactly
when user id, event or session id is empty or hour or minute does not parse to
a number.  A handler that does not block issues the create call with the hour
and minute as parsed. -/
theorem reminder_submit_blocks_iff (result : Except String Unit) :
    (∀ v : RemindersView,
      ((Reminders.handleSubmit v result).2.any Effect.isGateway = false ↔
        (v.formData.userId = "" ∨ v.formData.event = "" ∨ v.formData.hour = "" ∨
          v.formData.minute = "" ∨ v.formData.sessionId = "")) ∧
      ((Reminders.handleSubmit v result).2.any Effect.isGateway = false →
        Reminders.handleSubmit v result =
          (v, [Effect.toast "请填写所有必填字段" "error"])) ∧
      ((Reminders.handleSubmit v result).2.any Effect.isGateway = true →
        Effect.gateway
            (Call.createReminder v.formData.userId
              (reminderBody v.formData.event (Js.parseInt v.formData.hour)
                (Js.parseInt v.formData.minute) v.formData.sessionId v.formData.isGroup
                v.formData.isDaily)) ∈
          (Reminders.handleSubmit v result).2)) ∧
    (∀ form : ReminderFormDom,
      ((Static.submitReminder form result).2.any Effect.isGateway = false ↔
        (form.userId = "" ∨ form.event = "" ∨ Js.parseInt form.hour = none ∨
          Js.parseInt form.minute = none ∨ form.sessionId = "")) ∧
      ((Static.submitReminder form result).2.any Effect.isGateway = false →
        Static.submitReminder form result =
          (form, [Effect.toast "请填写所有必填字段" "error"])) ∧
      ((Static.submitReminder form result).2.any Effect.isGateway = true →
        Effect.gateway
            (Call.createReminder form.userId
              (reminderBody form.event (Js.parseInt form.hour) (Js.parseInt form.minute)
                form.sessionId form.isGroup form.isDaily)) ∈
          (Static.submitReminder form result).2)) := by
  refine ⟨fun v => ?_, fun form => ?_⟩
  · by_cases h : v.formData.userId = "" ∨ v.formData.event = "" ∨ v.formData.hour = "" ∨
        v.formData.minute = "" ∨ v.formData.sessionId = ""
    · have e : Reminders.handleSubmit v result =
          (v, [Effect.toast "请填写所有必填字段" "error"]) := by
        unfold Reminders.handleSubmit
        simp only [if_pos h]
      rw [e]
      simp [h, Effect.isGateway]
    · cases result <;>
        simp [Reminders.handleSubmit, h, Effect.isGateway]
  · by_cases h : form.userId = "" ∨ form.event = "" ∨ Js.parseInt form.hour = none ∨
        Js.parseInt form.minute = none ∨ form.sessionId = ""
    · have e : Static.submitReminder form result =
          (form, [Effect.toast "请填写所有必填字段" "error"]) := by
        unfold Static.submitReminder
        simp only [if_pos h]
      rw [e]
      simp [h, Effect.isGateway]
    · cases result <;>
        simp [Static.submitReminder, h, Effect.isGateway]

/-- Instance of C14 (amended) on `gapDaily`: 3 January is in the series, with
its count. -/
theorem C14_daily_series_witness :
    gapDaily.get "2024-01-03" ≠ none ∧ "2024-01-03" ∈ dailyDates gapDaily :=
  ⟨by decide, ((C14_daily_series gapDaily).2.2.2.1 "2024-01-03").mpr (by decide)⟩

/-! ## Claims on upload, duplicates and type labels -/

/-- C21: for every selected file, `handleFileSelect` issues the upload call if
and only if the file's type is one of image/jpeg, image/png, image/gif,
image/webp, image/bmp and its size is at most 10*1024*1024 = 10485760 bytes; in
every other case it emits an error notice, issues no call and leaves the view
unchanged. -/
theorem C21_upload_gate (view : ImagesView) (file : FileInfo) (rest : List FileInfo)
    (result : Except String Unit) :
    ((Images.handleFileSelect view (some (file :: rest)) result).2.any Effect.isGateway = true ↔
      (file.type ∈ ["image/jpeg", "image/png", "image/gif", "image/webp", "image/bmp"] ∧
        file.size ≤ 10485760)) ∧
    (¬ (file.type ∈ ["image/jpeg", "image/png", "image/gif", "image/webp", "image/bmp"] ∧
        file.size ≤ 10485760) →
      (Images.handleFileSelect view (some (file :: rest)) result).2.any
          Effect.isErrorToast = true ∧
      (Images.handleFileSelect view (some (file :: rest)) result).2.any
          Effect.isGateway = false ∧
      (Images.handleFileSelect view (some (file :: rest)) result).1 = view) ∧
    Images.maxSize = 10485760 := by
  have hmax : Images.maxSize = 10485760 := by decide
  have hall : Images.allowedTypes =
      ["image/jpeg", "image/png", "image/gif", "image/webp", "image/bmp"] := rfl
  by_cases ht : file.type ∈ Images.allowedTypes
  · by_cases hs : file.size > Images.maxSize
    · have hs' : ¬ file.size ≤ 10485760 := by rw [hmax] at hs; omega
      have hlt : 10485760 < file.size := by omega
      simp [Images.handleFileSelect, ht, hs', hlt, hmax, Effect.isGateway,
        Effect.isErrorToast]
    · have hs' : file.size ≤ 10485760 := by rw [hmax] at hs; omega
      have hlt : ¬ 10485760 < file.size := by omega
      rw [hall] at ht
      cases result <;>
        simp [Images.handleFileSelect, hall, ht, hs', hlt, hmax, Effect.isGateway]
  · have ht' := ht
    rw [hall] at ht'
    simp [Images.handleFileSelect, ht, ht', hmax, Effect.isGateway, Effect.isErrorToast]

/-- Instance of C21: a PNG of exactly 10485760 bytes is uploaded, one of
10485761 bytes is rejected with an error notice. -/
theorem C21_upload_gate_witness :
    (Images.handleFileSelect sampleImages
        (some [{ name := "a.png", type := "image/png", size := 10485760 }])
        (Except.ok ())).2.any Effect.isGateway = true ∧
    ¬ ("image/png" ∈ ["image/jpeg", "image/png", "image/gif", "image/webp", "image/bmp"] ∧
        10485761 ≤ 10485760) ∧
    (Images.handleFileSelect sampleImages
        (some [{ name := "a.png", type := "image/png", size := 10485761 }])
        (Except.ok ())).2.any Effect.isErrorToast = true :=
  ⟨(C21_upload_gate sampleImages { name := "a.png", type := "image/png", size := 10485760 }
      [] (Except.ok ())).1.mpr (by decide),
   by decide,
   ((C21_upload_gate sampleImages { name := "a.png", type := "image/png", size := 10485761 }
      [] (Except.ok ())).2.1 (by decide)).1⟩

theorem requestError_400_includes (statusText : String) :
    "400".data <:+: (Api.requestError 400 statusText).data := by
  refine ⟨"HTTP ".data, ": ".data ++ statusText.data, ?_⟩
  have h : toString (400 : Nat) = "400" := by decide
  simp [Api.requestError, h, String.data_append]

/-- C22: when the food-add call is rejected with status 400, the status the
handler recognises as the backend's answer for an already-present food,
`handleAddFood` emits the notice "该食物已存在" and not the generic "添加失败",
starts no refetch, and leaves the view, hence both food lists and their
displayed counts, unchanged. -/
theorem C22_duplicate_food_notice (view : EatView) (listName : ListName)
    (statusText : String) (hname : Js.trim (Eat.input view.inputs listName) ≠ "") :
    Eat.handleAddFood view listName (Except.error (Api.requestError 400 statusText)) =
      (view,
        [Effect.gateway (Call.addFood listName (Js.trim (Eat.input view.inputs listName))),
          Effect.consoleError "Failed to add food:",
          Effect.toast "该食物已存在" "error"]) ∧
    Effect.toast "添加失败" "error" ∉
      (Eat.handleAddFood view listName
        (Except.error (Api.requestError 400 statusText))).2 ∧
    (Eat.handleAddFood view listName
        (Except.error (Api.requestError 400 statusText))).2.any Effect.isReload = false ∧
    (Eat.handleAddFood view listName
        (Except.error (Api.requestError 400 statusText))).1.eatData.android.length =
      view.eatData.android.length ∧
    (Eat.handleAddFood view listName
        (Except.error (Api.requestError 400 statusText))).1.eatData.apple.length =
      view.eatData.apple.length := by
  have e : Eat.handleAddFood view listName
      (Except.error (Api.requestError 400 statusText)) =
      (view,
        [Effect.gateway (Call.addFood listName (Js.trim (Eat.input view.inputs listName))),
          Effect.consoleError "Failed to add food:",
          Effect.toast "该食物已存在" "error"]) := by
    unfold Eat.handleAddFood
    simp only [if_neg hname, if_pos (requestError_400_includes statusText)]
  rw [e]
  refine ⟨rfl, ?_, ?_, rfl, rfl⟩
  · simp
  · simp [Effect.isReload]

/-- Instance of C22: the typed food is already in the list and the backend
answers 400 Bad Request. -/
theorem C22_duplicate_food_notice_witness :
    Js.trim (Eat.input sampleEat.inputs ListName.android) ≠ "" ∧
    Eat.handleAddFood sampleEat ListName.android
        (Except.error (Api.requestError 400 "Bad Request")) =
      (sampleEat,
        [Effect.gateway (Call.addFood ListName.android "rice"),
          Effect.consoleError "Failed to add food:",
          Effect.toast "该食物已存在" "error"]) :=
  ⟨by decide,
   (C22_duplicate_food_notice sampleEat ListName.android "Bad Request" (by decide)).1.trans
     (by decide)⟩

/-- C23 (refuted as stated): a reminder with `is_daily` set and an interval of
3 days is labelled by its interval, not daily; a non-daily reminder with an
interval and a weekday set is labelled as weekday-set, not by its interval.
Both frontends agree. -/
theorem C23_counterexample :
    Js.truthy (dailyIntervalReminder.get "is_daily") = true ∧
    typeLabel dailyIntervalReminder = "每3天" ∧
    typeLabel dailyIntervalReminder ≠ "每日" ∧
    Js.truthy (intervalWeekdayReminder.get "is_daily") = false ∧
    Js.truthy (intervalWeekdayReminder.get "interval_days") = true ∧
    typeLabel intervalWeekdayReminder = "周期" ∧
    typeLabel intervalWeekdayReminder ≠ "每3天" ∧
    Static.typeLabel dailyIntervalReminder = "每3天" ∧
    Static.typeLabel intervalWeekdayReminder = "周期" := by
  decide

/-- C23 (amended): the type label is chosen by last match in the order daily,
interval, weekday-set: a reminder with `weekdays` is labelled weekday-set
whatever else it has, a reminder without `weekdays` but with `interval_days`
is labelled by its interval even when `is_daily` is set, a reminder with
`is_daily` alone is labelled daily, and a reminder with none of the three is
labelled one-shot.  Both frontends compute the same label. -/
theorem C23_typeLabel_last_match (reminder : Obj) :
    (Js.truthy (reminder.get "weekdays") = true → typeLabel reminder = "周期") ∧
    (Js.truthy (reminder.get "weekdays") = false →
      Js.truthy (reminder.get "interval_days") = true →
      typeLabel reminder = "每" ++ Js.toText (reminder.get "interval_days") ++ "天") ∧
    (Js.truthy (reminder.get "weekdays") = false →
      Js.truthy (reminder.get "interval_days") = false →
      Js.truthy (reminder.get "is_daily") = true → typeLabel reminder = "每日") ∧
    (Js.truthy (reminder.get "weekdays") = false →
      Js.truthy (reminder.get "interval_days") = false →
      Js.truthy (reminder.get "is_daily") = false → typeLabel reminder = "一次性") ∧
    Static.typeLabel reminder = typeLabel reminder := by
  refine ⟨fun h => ?_, fun h1 h2 => ?_, fun h1 h2 h3 => ?_, fun h1 h2 h3 => ?_, rfl⟩
  · simp [typeLabel, h]
  · simp [typeLabel, h1, h2]
  · simp [typeLabel, h1, h2, h3]
  · simp [typeLabel, h1, h2, h3]

/-- Instance of C23 (amended) on the daily reminder with an interval. -/
theorem C23_typeLabel_last_match_witness :
    Js.truthy (dailyIntervalReminder.get "weekdays") = false ∧
    Js.truthy (dailyIntervalReminder.get "interval_days") = true ∧
    typeLabel dailyIntervalReminder =
      "每" ++ Js.toText (dailyIntervalReminder.get "interval_days") ++ "天" :=
  ⟨by decide, by decide,
   (C23_typeLabel_last_match dailyIntervalReminder).2.1 (by decide) (by decide)⟩

/-! ## Claims on the display refresh and on the two formatters -/

theorem arrayCopy_eq {α : Type} (xs : List α) : Js.arrayCopy xs = xs := by
  unfold Js.arrayCopy
  have h := foldl_push (fun x : α => x) xs []
  simpa using h

/-- C24: a display-refresh tick of the Countdowns view (`updateTimers`) has no
effect at all, so it issues no gateway call, and leaves the countdown list with
the same entries in the same order, the rest of the view state untouched; the
time-left strings rendered after the tick are those of the same entries at the
current instant. -/
theorem C24_updateTimers_frame (view : CountdownsView) :
    (Countdowns.updateTimers view).2 = [] ∧
    (Countdowns.updateTimers view).2.any Effect.isGateway = false ∧
    (Countdowns.updateTimers view).1.countdowns = view.countdowns ∧
    (Countdowns.updateTimers view).1 = view ∧
    (∀ (timeValue : Option Val → Int) (now : Int),
      Countdowns.timeLeftStrings timeValue now (Countdowns.updateTimers view).1 =
        view.countdowns.map
          (fun countdown => formatTimeDelta (timeValue (countdown.get "time")) now)) := by
  have h : (Countdowns.updateTimers view).1 = view := by
    unfold Countdowns.updateTimers
    simp only [arrayCopy_eq]
  refine ⟨rfl, rfl, by rw [h], h, fun timeValue now => ?_⟩
  rw [h]
  rfl

/-- C26: for every target instant and every current instant the
`formatTimeDelta` of the React frontend and the `formatTimeDelta` of the static
frontend return the same string. -/
theorem C26_formatTimeDelta_frontends_agree (target now : Int) :
    formatTimeDelta target now = Static.formatTimeDelta target now :=
  (formatTimeDelta_static_eq target now).symm

/-- C27: for a fixed target and current instants `now1 <= now2 < target`, the
(days, hours, minutes) triple computed at `now2` is lexicographically less than
or equal to the triple computed at `now1`. -/
theorem C27_time_left_never_increases (target now1 now2 : Int) (h12 : now1 ≤ now2)
    (h2 : now2 < target) :
    TimeDelta.days (target - now2) < TimeDelta.days (target - now1) ∨
    (TimeDelta.days (target - now2) = TimeDelta.days (target - now1) ∧
      (TimeDelta.hours (target - now2) < TimeDelta.hours (target - now1) ∨
        (TimeDelta.hours (target - now2) = TimeDelta.hours (target - now1) ∧
          TimeDelta.minutes (target - now2) ≤ TimeDelta.minutes (target - now1)))) := by
  have p1 : 0 ≤ target - now1 := by omega
  have p2 : 0 ≤ target - now2 := by omega
  rw [TimeDelta.days_eq, TimeDelta.days_eq, TimeDelta.hours_eq p1, TimeDelta.hours_eq p2,
    TimeDelta.minutes_eq p1, TimeDelta.minutes_eq p2]
  omega

/-- Instance of C27: one hour passes with a day and a half to go. -/
theorem C27_time_left_never_increases_witness :
    (1000 : Int) ≤ 3601000 ∧ (3601000 : Int) < 129601000 ∧
    (TimeDelta.days (129601000 - 3601000) < TimeDelta.days (129601000 - 1000) ∨
      (TimeDelta.days (129601000 - 3601000) = TimeDelta.days (129601000 - 1000) ∧
        (TimeDelta.hours (129601000 - 3601000) < TimeDelta.hours (129601000 - 1000) ∨
          (TimeDelta.hours (129601000 - 3601000) = TimeDelta.hours (129601000 - 1000) ∧
            TimeDelta.minutes (129601000 - 3601000) ≤
              TimeDelta.minutes (129601000 - 1000))))) :=
  ⟨by decide, by decide,
   C27_time_left_never_increases 129601000 1000 3601000 (by decide) (by decide)⟩

/-! ## Claims on the image URLs and on the static countdown timers -/

/-- A filename of unreserved characters only is left as it is by
`encodeURIComponent`, so both frontends request the same URL for it. -/
theorem deleteImageUrl_eq_of_unreserved (apiBaseUrl folder filename : String)
    (h : ∀ c ∈ filename.data, Js.isUriUnreserved c = true) :
    Static.deleteImageUrl apiBaseUrl folder filename =
      Api.deleteImageUrl apiBaseUrl folder filename := by
  have e : Js.encodeURIComponent filename = filename := by
    unfold Js.encodeURIComponent
    have : ∀ l : List Char, (∀ c ∈ l, Js.isUriUnreserved c = true) →
        l.flatMap (fun c =>
          if Js.isUriUnreserved c then [c]
          else (String.utf8EncodeChar c).flatMap Js.percentEncode) = l := by
      intro l
      induction l with
      | nil => intro _; rfl
      | cons c rest ih =>
        intro hl
        have hc := hl c (List.mem_cons_self c rest)
        have hr := ih (fun x hx => hl x (List.mem_cons_of_mem c hx))
        simp [List.flatMap_cons, hc, hr]
    rw [this filename.data h]
  unfold Static.deleteImageUrl Api.deleteImageUrl
  rw [e]

/-- C28 (code defect): for the filename `a?b.png` the React gateway requests
`/api/images/pics/a?b.png`, where `?b.png` is read as a query string, while the
static frontend requests `/api/images/pics/a%3Fb.png`; the URLs differ likewise
for `#`, `/` and `%` in the filename. -/
theorem C28_deleteImage_urls_differ :
    Api.deleteImageUrl "" "pics" "a?b.png" = "/api/images/pics/a?b.png" ∧
    Static.deleteImageUrl "" "pics" "a?b.png" = "/api/images/pics/a%3Fb.png" ∧
    Api.deleteImageUrl "" "pics" "a?b.png" ≠ Static.deleteImageUrl "" "pics" "a?b.png" ∧
    Api.deleteImageUrl "" "pics" "a#b.png" ≠ Static.deleteImageUrl "" "pics" "a#b.png" ∧
    Api.deleteImageUrl "" "pics" "a/b.png" ≠ Static.deleteImageUrl "" "pics" "a/b.png" ∧
    Api.deleteImageUrl "" "pics" "a%b.png" ≠ Static.deleteImageUrl "" "pics" "a%b.png" := by
  decide

/-- C25 (code defect): the countdowns page is shown with one card and one
pending timeout, then the dashboard is opened; the pending timeout still fires,
an hour later here, and rewrites the card's time-left text ("1天0小时" becomes
"23小时0分钟") although the page is no longer active; only after that write is
no timeout left. -/
theorem C25_tick_writes_after_leaving :
    Static.run parseNewYear2030 Static.initialPage
        [Static.PageEvent.navigate "countdowns",
          Static.PageEvent.loadResolved oneCountdown 1893369600000,
          Static.PageEvent.navigate "dashboard"] =
      some
        { active := false
          cards :=
            [{ userId := "10001", eventName := "exam",
               targetTime := "2030-01-01T00:00:00.000Z", timeLeft := "1天0小时" }]
          pendingLoads := 0
          pendingTimers := 1 } ∧
    Static.run parseNewYear2030 Static.initialPage
        [Static.PageEvent.navigate "countdowns",
          Static.PageEvent.loadResolved oneCountdown 1893369600000,
          Static.PageEvent.navigate "dashboard",
          Static.PageEvent.timerFires 1893373200000] =
      some
        { active := false
          cards :=
            [{ userId := "10001", eventName := "exam",
               targetTime := "2030-01-01T00:00:00.000Z", timeLeft := "23小时0分钟" }]
          pendingLoads := 0
          pendingTimers := 0 } ∧
    Static.run parseNewYear2030 Static.initialPage
        [Static.PageEvent.navigate "countdowns",
          Static.PageEvent.loadResolved oneCountdown 1893369600000,
          Static.PageEvent.navigate "dashboard",
          Static.PageEvent.timerFires 1893373200000,
          Static.PageEvent.timerFires 1893373201000] = none := by
  decide

/-- C29 (code defect): the countdowns page is opened and loaded, then a
countdown is created or deleted and the list is loaded again: two
`updateCountdownTimers` timeouts are pending, and both are set again at each
tick while the page stays active. -/
theorem C29_two_pending_timers :
    (Static.run parseNewYear2030 Static.initialPage
        [Static.PageEvent.navigate "countdowns",
          Static.PageEvent.loadResolved oneCountdown 1893369600000,
          Static.PageEvent.mutationSucceeded,
          Static.PageEvent.loadResolved oneCountdown 1893369600500]).map
      (fun page => page.pendingTimers) = some 2 ∧
    (Static.run parseNewYear2030 Static.initialPage
        [Static.PageEvent.navigate "countdowns",
          Static.PageEvent.loadResolved oneCountdown 1893369600000,
          Static.PageEvent.mutationSucceeded,
          Static.PageEvent.loadResolved oneCountdown 1893369600500,
          Static.PageEvent.timerFires 1893369601000,
          Static.PageEvent.timerFires 1893369601500]).map
      (fun page => page.pendingTimers) = some 2 := by
  decide

end MyBot
